import Mathlib

/-!
Verification of the CodeSentinel declarative pattern engine.

The definitions below are a shallow embedding of the TypeScript sources:
regular-expression literals are hand-translated into the `Re` syntax tree,
and the JavaScript matching loop (`RegExp.prototype.exec` with the `g` flag,
`lastIndex` statefulness included) is modelled by an explicit, fuelled
backtracking matcher with JavaScript's leftmost, greedy/lazy semantics.
-/

namespace CodeSentinel

/-- Items a character class can contain (`[abc]`, `[a-z0-9]`, `\d`, `\w`, `\s`, `.`). -/
inductive ClsItem where
  | lit (c : Char)
  | range (lo hi : Char)
  | digit
  | word
  | space
  deriving Repr, DecidableEq

/-- JavaScript `\s`: whitespace and line terminators. -/
def isJsSpace (c : Char) : Bool :=
  c = ' ' || c = '\t' || c = '\n' || c = '\r' || c = '\x0b' || c = '\x0c'

/-- JavaScript `\w`: `[A-Za-z0-9_]`. -/
def isJsWord (c : Char) : Bool :=
  ('a' ≤ c && c ≤ 'z') || ('A' ≤ c && c ≤ 'Z') || ('0' ≤ c && c ≤ '9') || c = '_'

def ClsItem.matches : ClsItem → Char → Bool
  | .lit a, c => a = c
  | .range lo hi, c => lo ≤ c && c ≤ hi
  | .digit, c => '0' ≤ c && c ≤ '9'
  | .word, c => isJsWord c
  | .space, c => isJsSpace c

/-- A character class: a set of items, possibly negated (`[^...]`). -/
structure Cls where
  neg : Bool
  items : List ClsItem
  deriving Repr, DecidableEq

/-- Class membership, with optional case-insensitive folding (the `i` flag). -/
def Cls.matches (ic : Bool) (cl : Cls) (c : Char) : Bool :=
  let hit := cl.items.any fun it =>
    it.matches c || (ic && (it.matches c.toLower || it.matches c.toUpper))
  hit != cl.neg

/-- Syntax of the regular expressions used by the pattern engine.
Quantifiers `+`, `?`, `{n}`, `{n,}` are expressed with `seq`/`star`/`alt`
(see the combinators below); `greedy := false` is a lazy quantifier (`*?`).
`look true` is a negative lookahead `(?!...)`, `wb` is `\b`, and `eol` is `$`.
`grp n a` is a numbered capture group `(a)` and `bref n` the backreference
`\n` (used by one rule, CS-ERR020). -/
inductive Re where
  | eps
  | cls (c : Cls)
  | seq (a b : Re)
  | alt (a b : Re)
  | star (greedy : Bool) (a : Re)
  | look (neg : Bool) (a : Re)
  | grp (n : Nat) (a : Re)
  | bref (n : Nat)
  | wb
  | bol
  | eol
  deriving Repr, DecidableEq

/-- Is position `i` in `cs` a `\b` word boundary? -/
def wordBoundary (cs : List Char) (i : Nat) : Bool :=
  let p := match cs.get? (i - 1) with
    | some c => i ≠ 0 && isJsWord c
    | none => false
  let q := match cs.get? i with
    | some c => isJsWord c
    | none => false
  p != q

/-- Does `^` match at position `i` (with or without the `m` flag)? -/
def atBol (ml : Bool) (cs : List Char) (i : Nat) : Bool :=
  i = 0 || (ml && (match cs.get? (i - 1) with
    | some c => c = '\n' || c = '\r'
    | none => false))

/-- Does `$` match at position `i` (with or without the `m` flag)? -/
def atEol (ml : Bool) (cs : List Char) (i : Nat) : Bool :=
  i = cs.length || (ml && (match cs.get? i with
    | some c => c = '\n' || c = '\r'
    | none => false))

/-- The capture store: `(group index, span start, span end)`, most recent
binding first. -/
abbrev Caps := List (Nat × Nat × Nat)

/-- Character equality up to the `i` flag's canonicalization. -/
def chEq (ic : Bool) (c d : Char) : Bool :=
  c = d || (ic && c.toUpper = d.toUpper)

/-- Do the `cnt` characters starting at `s` equal those starting at `i`? -/
def spanEqAt (ic : Bool) (cs : List Char) : Nat → Nat → Nat → Bool
  | 0, _, _ => true
  | cnt + 1, s, i =>
    match cs.get? s, cs.get? i with
    | some c, some d => chEq ic c d && spanEqAt ic cs cnt (s + 1) (i + 1)
    | _, _ => false

/-- The most recent span captured for group `n`, if any. -/
def capLookup (caps : Caps) (n : Nat) : Option (Nat × Nat) :=
  match caps.find? (fun t => t.1 = n) with
  | some t => some t.2
  | none => none

/-- Indices of the capture groups occurring in a regex. -/
def grpIdxs : Re → List Nat
  | .eps | .cls _ | .bref _ | .wb | .bol | .eol => []
  | .seq a b | .alt a b => grpIdxs a ++ grpIdxs b
  | .star _ a | .look _ a => grpIdxs a
  | .grp n a => n :: grpIdxs a

/-- Reset the captures of the groups inside `a` (JavaScript's RepeatMatcher
clears them when entering each quantifier repetition). -/
def clearCaps (a : Re) (caps : Caps) : Caps :=
  caps.filter (fun t => !(grpIdxs a).contains t.1)

/-- The backtracking matcher, in continuation-passing style: try to match `re`
in `cs` starting at position `i` with capture store `caps`, calling `k` with
the end position and captures of each candidate match in JavaScript's
preference order (leftmost, greedy quantifiers longest-first, lazy
quantifiers shortest-first) until `k` succeeds. A backreference to an unset
group matches the empty string, as in JavaScript; captures made inside a
lookahead do not escape it (no table pattern places a group there).

The recursion is structural on `fuel` (so that concrete scans reduce inside
the kernel); every recursive call spends one unit, so any fuel at least the
maximal call depth reproduces JavaScript's semantics exactly. A quantifier
iteration that consumes nothing is not repeated (JavaScript's RepeatMatcher
rule), so each `star` re-enters its body at most `cs.length` times and
`(size re + 1) * (cs.length + 2)` fuel (see `matchAt`) is always enough. -/
def mrun (ic ml : Bool) (cs : List Char) :
    Nat → Re → Nat → Caps → (Nat → Caps → Option Nat) → Option Nat
  | 0, _, _, _, _ => none
  | fuel + 1, re, i, caps, k =>
    match re with
    | .eps => k i caps
    | .cls c =>
      match cs.get? i with
      | some ch => if c.matches ic ch then k (i + 1) caps else none
      | none => none
    | .seq a b =>
      mrun ic ml cs fuel a i caps (fun j caps2 => mrun ic ml cs fuel b j caps2 k)
    | .alt a b =>
      (mrun ic ml cs fuel a i caps k) <|> (mrun ic ml cs fuel b i caps k)
    | .star g a =>
      let iter := mrun ic ml cs fuel a i (clearCaps a caps)
        (fun j caps2 =>
          if i < j then mrun ic ml cs fuel (.star g a) j caps2 k else none)
      if g then iter <|> k i caps else (k i caps) <|> iter
    | .look neg a =>
      match mrun ic ml cs fuel a i caps (fun j _ => some j) with
      | some _ => if neg then none else k i caps
      | none => if neg then k i caps else none
    | .grp n a =>
      mrun ic ml cs fuel a i caps (fun j caps2 => k j ((n, i, j) :: caps2))
    | .bref n =>
      match capLookup caps n with
      | some (s, e) =>
        if spanEqAt ic cs (e - s) s i then k (i + (e - s)) caps else none
      | none => k i caps
    | .wb => if wordBoundary cs i then k i caps else none
    | .bol => if atBol ml cs i then k i caps else none
    | .eol => if atEol ml cs i then k i caps else none

/-- Number of syntax-tree nodes of a regex. -/
def reSize : Re → Nat
  | .eps | .wb | .bol | .eol => 1
  | .cls _ | .bref _ => 1
  | .seq a b | .alt a b => 1 + reSize a + reSize b
  | .star _ a | .look _ a | .grp _ a => 1 + reSize a

/-- A compiled JavaScript `RegExp`: the pattern with its flags and the mutable
`lastIndex` cursor (the only mutable state of a compiled rule set). -/
structure RegExp where
  re : Re
  ignoreCase : Bool := false
  multiline : Bool := false
  global : Bool := false
  lastIndex : Nat := 0
  deriving Repr, DecidableEq

/-- Fuel that covers the deepest possible call path of `mrun re` on `cs`. -/
def reFuel (re : Re) (cs : List Char) : Nat := (reSize re + 1) * (cs.length + 2)

/-- End position of the match of `r` at exactly position `i`, if any. -/
def matchAt (r : RegExp) (cs : List Char) (i : Nat) : Option Nat :=
  mrun r.ignoreCase r.multiline cs (reFuel r.re cs) r.re i []
    (fun j _ => some j)

/-- Scan positions `i, i+1, ...` for the leftmost match (at most
`cs.length + 1 - i` candidate start positions). -/
def searchLoop (r : RegExp) (cs : List Char) : Nat → Nat → Option (Nat × Nat)
  | 0, _ => none
  | fuel + 1, i =>
    if i ≤ cs.length then
      match matchAt r cs i with
      | some e => some (i, e)
      | none => searchLoop r cs fuel (i + 1)
    else none

/-- Leftmost match of `r` in `cs` at or after position `i`: `(start, end)`. -/
def searchFrom (r : RegExp) (cs : List Char) (i : Nat) : Option (Nat × Nat) :=
  searchLoop r cs (cs.length + 1 - i) i

/-- `RegExp.prototype.exec`: search from `lastIndex` when the `g` flag is set
(from 0 otherwise), and update `lastIndex` as JavaScript does — to the match
end on success, to 0 on failure; a non-global regex never touches it. -/
def exec (r : RegExp) (cs : List Char) : Option (Nat × Nat) × RegExp :=
  let start := if r.global then r.lastIndex else 0
  match searchFrom r cs start with
  | some (s, e) => (some (s, e), if r.global then { r with lastIndex := e } else r)
  | none => (none, if r.global then { r with lastIndex := 0 } else r)

/-! ### JavaScript string helpers -/

/-- `str.split('\n')`: split into the (never empty) list of lines. -/
def splitNl (cs : List Char) : List (List Char) :=
  match cs with
  | [] => [[]]
  | c :: rest =>
    match splitNl rest with
    | [] => [[]]
    | h :: t => if c = '\n' then [] :: h :: t else (c :: h) :: t

/-- `str.trim()`: strip leading and trailing whitespace. -/
def jsTrim (cs : List Char) : List Char :=
  ((cs.dropWhile isJsSpace).reverse.dropWhile isJsSpace).reverse

/-- `str.substring(a, b)` on character lists. -/
def substr (cs : List Char) (a b : Nat) : List Char :=
  (cs.drop a).take (b - a)

/-- `GetSubstitution` for a regex with no capture groups: expand the
replacement-string escapes `$$` (a dollar sign), `$&` (the matched text),
`` $` `` (the text before the match) and a dollar-quote (the text after the
match); a dollar followed by anything else — including digits and `<`, since
the substitution regexes have neither numbered nor named groups — stands for
itself. -/
def expandRepl (matched pre post : List Char) : List Char → List Char
  | [] => []
  | c :: rest =>
    if c = '$' then
      match rest with
      | [] => ['$']
      | d :: rest2 =>
        if d = '$' then '$' :: expandRepl matched pre post rest2
        else if d = '&' then matched ++ expandRepl matched pre post rest2
        else if d = '\x60' then pre ++ expandRepl matched pre post rest2
        else if d = '\x27' then post ++ expandRepl matched pre post rest2
        else c :: d :: expandRepl matched pre post rest2
    else c :: expandRepl matched pre post rest

/-- `str.replace(/needle/g, repl)` for a literal, non-empty `needle` without
regex metacharacters: replace every non-overlapping occurrence left to
right, expanding the `$`-escapes of the replacement string at each
occurrence (the matched text is always `needle` itself). -/
def replaceLitLoop (orig needle repl : List Char) : Nat → Nat → List Char
  | 0, i => orig.drop i
  | fuel + 1, i =>
    match orig.drop i with
    | [] => []
    | c :: _ =>
      if needle.isPrefixOf (orig.drop i) then
        expandRepl needle (orig.take i) (orig.drop (i + needle.length)) repl ++
          replaceLitLoop orig needle repl fuel (i + needle.length)
      else c :: replaceLitLoop orig needle repl fuel (i + 1)

def replaceLit (needle repl hay : List Char) : List Char :=
  replaceLitLoop hay needle repl (hay.length + 1) 0

/-- `str.replace(p, r)` on `String`. -/
def jsReplace (hay needle repl : String) : String :=
  String.mk (replaceLit needle.toList repl.toList hay.toList)

/-! ### Regex AST combinators

Each combinator mirrors one fragment of regex source syntax, so that the
tables below can transcribe the TypeScript regex literals piecewise. -/

/-- A single literal character (also the result of `escapeRegex` on it). -/
def rLit (c : Char) : Re := .cls ⟨false, [.lit c]⟩

/-- Sequence a list of regexes. -/
def seqL (rs : List Re) : Re := rs.foldr .seq .eps

/-- A literal string, e.g. `catch` (escaped literals are plain text). -/
def rStr (s : String) : Re := seqL (s.toList.map rLit)

/-- `(a|b|...)`; an empty alternation (`()` from joining an empty list)
matches the empty string, as in JavaScript. -/
def altL : List Re → Re
  | [] => .eps
  | [r] => r
  | r :: rs => .alt r (altL rs)

/-- `\s` -/
def rWs : Re := .cls ⟨false, [.space]⟩
/-- `\s*` -/
def wsStar : Re := .star true rWs
/-- `\s+` -/
def wsPlus : Re := .seq rWs wsStar
/-- `\w` -/
def rWord : Re := .cls ⟨false, [.word]⟩
/-- `\d` -/
def rDigit : Re := .cls ⟨false, [.digit]⟩
/-- `[^c...]` -/
def notCls (cs : List Char) : Re := .cls ⟨true, cs.map .lit⟩
/-- `[\s\S]` — any character at all. -/
def anyCh : Re := .cls ⟨true, []⟩
/-- `.` without the `s` flag: anything but a line terminator. -/
def dot : Re := .cls ⟨true, [.lit '\n', .lit '\r']⟩
/-- greedy `r+` -/
def rPlus (r : Re) : Re := .seq r (.star true r)
/-- greedy `r?` -/
def rOpt (r : Re) : Re := .alt r .eps
/-- lazy `r*?` -/
def lazyStar (r : Re) : Re := .star false r
/-- `r{n}` -/
def repN : Nat → Re → Re
  | 0, _ => .eps
  | n + 1, r => .seq r (repN n r)
/-- `r{n,}` (greedy) -/
def atLeast (n : Nat) (r : Re) : Re := .seq (repN n r) (.star true r)
/-- `['"\x60]` — the quote-character class used throughout the builders. -/
def quoteCls : Re := .cls ⟨false, [.lit '\x27', .lit '"', .lit '\x60']⟩
/-- `[^'"\x60]` -/
def notQuote : Re := .cls ⟨true, [.lit '\x27', .lit '"', .lit '\x60']⟩
/-- The `[A-Za-z0-9]` character class. -/
def alnumClsVal : Cls := ⟨false, [.range 'A' 'Z', .range 'a' 'z', .range '0' '9']⟩
/-- `[A-Za-z0-9]` -/
def alnumCls : Re := .cls alnumClsVal

/-- A `/.../g` regex literal. -/
def gRe (re : Re) : RegExp := { re := re, global := true }
/-- A `/.../gi` regex literal. -/
def giRe (re : Re) : RegExp := { re := re, global := true, ignoreCase := true }

/-! ### Data model (`types.ts`, `patterns/types.ts`) -/

inductive Severity where
  | critical | high | medium | low | info
  deriving Repr, DecidableEq

inductive Category where
  | security | error | deceptive | placeholder | strength
  deriving Repr, DecidableEq

inductive VerificationStatus where
  | confirmed | needs_verification
  deriving Repr, DecidableEq

/-- Verification requirements attached to a finding. -/
structure Verification where
  status : VerificationStatus
  commands : Option (List String) := none
  assumption : Option String := none
  instruction : Option String := none
  confirmIf : Option String := none
  falsePositiveIf : Option String := none
  deriving Repr, DecidableEq

/-- A finding produced by the scan engine. -/
structure Issue where
  id : String
  category : Category
  severity : Severity
  title : String
  description : String
  line : Option Nat := none
  column : Option Nat := none
  code : Option String := none
  suggestion : Option String := none
  verification : Option Verification := none
  deriving Repr, DecidableEq

/-- `context` parameter of a `contains_text` spec. -/
inductive TextContext where
  | comment | string | any | single_line_comment | block_comment
  deriving Repr, DecidableEq

/-- Operators a `fallback_value` spec may use. -/
inductive FallbackOp where
  | orOr | qq | andAnd
  deriving Repr, DecidableEq

/-- Operators an `assignment_pattern` spec may use (`=` or `:`). -/
inductive AssignOp where
  | assign | colon
  deriving Repr, DecidableEq

def AssignOp.char : AssignOp → Char
  | .assign => '='
  | .colon => ':'

inductive ChainOp where
  | optChain | dotChain
  deriving Repr, DecidableEq

inductive CatchBehavior where
  | empty | comment_only | log_only | returns_value | ignores_error
  deriving Repr, DecidableEq

inductive PromiseBehavior where
  | empty | returns_silent | ignores_param
  deriving Repr, DecidableEq

inductive MarkerStyle where
  | single | block | any
  deriving Repr, DecidableEq

inductive SecretKind where
  | generic | github | openai | aws | stripe | custom
  deriving Repr, DecidableEq

inductive UrlProtocol where
  | http | https | any
  deriving Repr, DecidableEq

inductive CmpOp where
  | looseEq | looseNe | strictEq | strictNe
  deriving Repr, DecidableEq

inductive LoopKind where
  | for_in | while_true | infinite
  deriving Repr, DecidableEq

/-- The `MatchConfig` tagged union (18 variants). Regex sources carried by
the data (`raw_regex.pattern`, `secret_pattern.customPattern`) are embedded
as already-parsed `Re` syntax trees. The extra `unknownTag` constructor
models a runtime config whose `type` is none of the 18 known tags, which the
TypeScript `default:` case of `buildPattern` handles at run time. -/
inductive MatchConfig where
  | empty_block (constructs : List String) (allowComments : Option Bool := none)
  | function_call (names : List String) (methods : Option Bool := none)
      (constructors : Option Bool := none)
  | returns_only (values : List String) (withComment : Option (List String) := none)
  | contains_text (terms : List String) (context : Option TextContext := none)
      (caseInsensitive : Option Bool := none)
  | fallback_value (operators : List FallbackOp) (values : List String)
  | assignment_pattern (keys : List String) (values : Option (List String) := none)
      (operators : Option (List AssignOp) := none)
  | chained_access (minDepth : Nat) (operator : ChainOp)
  | catch_handler (behavior : CatchBehavior)
  | promise_catch (behavior : PromiseBehavior) (silentValues : Option (List String) := none)
  | comment_marker (markers : List String) (style : Option MarkerStyle := none)
  | string_literal (patterns : List String) (caseInsensitive : Option Bool := none)
  | secret_pattern (kind : SecretKind) (customPattern : Option Re := none)
  | url_pattern (protocol : Option UrlProtocol := none) (excludeLocalhost : Option Bool := none)
  | suppression_comment (tools : List String)
  | type_cast (targets : List String)
  | comparison (operators : List CmpOp) (strict : Option Bool := none)
  | loop_pattern (kind : LoopKind)
  | raw_regex (pattern : Re) (flags : Option String := none)
  | unknownTag (tag : String)
  deriving Repr, DecidableEq

/-- A declarative rule definition (`match` is a Lean keyword, hence
`matchSpec`). -/
structure PatternDefinition where
  id : String
  title : String
  description : String
  severity : Severity
  category : Category
  suggestion : Option String := none
  matchSpec : MatchConfig
  verification : Option Verification := none
  deriving Repr, DecidableEq

/-- A rule with its spec compiled to executable regexes. -/
structure CompiledPattern where
  id : String
  title : String
  description : String
  severity : Severity
  category : Category
  suggestion : Option String := none
  patterns : List RegExp
  verification : Option Verification := none
  deriving Repr, DecidableEq

/-! ### Matcher builders (`patterns/builders.ts`)

`escapeRegex` makes every character of its argument literal, so an escaped
string fragment is transcribed as `rStr`/`rLit`. Braces in string literals
are written `\x7b`/`\x7d`, quotes `\x27`, backticks `\x60`. -/

/-- `valueToPattern`: value shorthand to matcher fragment; unknown values
fall back to the escaped literal text. -/
def valueToPattern (value : String) : Re :=
  if value = "[]" then seqL [rLit '[', wsStar, rLit ']']
  else if value = "\x7b\x7d" then seqL [rLit '\x7b', wsStar, rLit '\x7d']
  else if value = "null" then rStr "null"
  else if value = "undefined" then rStr "undefined"
  else if value = "true" then rStr "true"
  else if value = "false" then rStr "false"
  else if value = "\"\"" then seqL [.cls ⟨false, [.lit '"', .lit '\x27']⟩, wsStar, .cls ⟨false, [.lit '"', .lit '\x27']⟩]
  else if value = "\x27\x27" then seqL [.cls ⟨false, [.lit '"', .lit '\x27']⟩, wsStar, .cls ⟨false, [.lit '"', .lit '\x27']⟩]
  else if value = "0" then rStr "0"
  else if value = "-1" then rStr "-1"
  else rStr value

/-- `catch\s*\([^)]*\)` — shared prefix of the catch-block regexes. -/
def catchParen : Re :=
  seqL [rStr "catch", wsStar, rLit '(', .star true (notCls [')']), rLit ')']

/-- `\{\s*\}` -/
def emptyBraces : Re := seqL [rLit '\x7b', wsStar, rLit '\x7d']

/-- `\(\s*\)` -/
def emptyParens : Re := seqL [rLit '(', wsStar, rLit ')']

/-- `buildEmptyBlock` -/
def buildEmptyBlock (constructs : List String) (allowComments : Option Bool) :
    List RegExp :=
  constructs.flatMap fun construct =>
    (if construct = "catch" then
      [gRe (seqL [catchParen, wsStar, emptyBraces])] ++
      (if allowComments = some true then
        [gRe (seqL [catchParen, wsStar, rLit '\x7b', wsStar, rStr "//",
            .star true (notCls ['\n']), wsStar, rLit '\x7d']),
         gRe (seqL [catchParen, wsStar, rLit '\x7b', wsStar, rStr "/*",
            lazyStar anyCh, rStr "*/", wsStar, rLit '\x7d'])]
      else [])
    else []) ++
    (if construct = "finally" then
      [gRe (seqL [rStr "finally", wsStar, emptyBraces])]
    else []) ++
    (if construct = ".catch" then
      [gRe (seqL [rStr ".catch", wsStar, rLit '(', wsStar, emptyParens, wsStar,
          rStr "=>", wsStar, emptyBraces, wsStar, rLit ')']),
       gRe (seqL [rStr ".catch", wsStar, rLit '(', wsStar, rPlus rWord, wsStar,
          rStr "=>", wsStar, emptyBraces, wsStar, rLit ')']),
       gRe (seqL [rStr ".catch", wsStar, rLit '(', wsStar, rStr "function", wsStar,
          rLit '(', .star true (notCls [')']), rLit ')', wsStar, emptyBraces,
          wsStar, rLit ')'])]
    else []) ++
    (if construct = ".then" then
      [gRe (seqL [rStr ".then", wsStar, rLit '(', wsStar, emptyParens, wsStar,
          rStr "=>", wsStar, emptyBraces, wsStar, rLit ')']),
       gRe (seqL [rStr ".then", wsStar, rLit '(', wsStar, rPlus rWord, wsStar,
          rStr "=>", wsStar, emptyBraces, wsStar, rLit ')'])]
    else []) ++
    (if construct = ".finally" then
      [gRe (seqL [rStr ".finally", wsStar, rLit '(', wsStar, emptyParens, wsStar,
          rStr "=>", wsStar, emptyBraces, wsStar, rLit ')'])]
    else [])

/-- `buildFunctionCall` -/
def buildFunctionCall (names : List String) (methods constructors : Option Bool) :
    List RegExp :=
  let namesAlt := altL (names.map rStr)
  [giRe (seqL [.wb, namesAlt, wsStar, rLit '('])] ++
  (if methods = some true then
    [giRe (seqL [rLit '.', namesAlt, wsStar, rLit '('])] else []) ++
  (if constructors = some true then
    [giRe (seqL [rStr "new", wsPlus, namesAlt, wsStar, rLit '('])] else [])

/-- `buildReturnsOnly` -/
def buildReturnsOnly (values : List String) (withComment : Option (List String)) :
    List RegExp :=
  let valsAlt := altL (values.map valueToPattern)
  match withComment with
  | some (w :: ws) =>
    [giRe (seqL [rStr "return", wsPlus, valsAlt, wsStar, rOpt (rLit ';'), wsStar,
        rStr "//", wsStar, lazyStar dot, altL ((w :: ws).map rStr)])]
  | _ =>
    [giRe (seqL [rStr "return", wsPlus, valsAlt, wsStar, rOpt (rLit ';')])]

/-- `buildContainsText`. The string-context regex `(['"\x60])...\1` uses a
backreference to the captured quote; it is expanded here into the equivalent
alternation over the three quote characters. -/
def buildContainsText (terms : List String) (context : Option TextContext)
    (caseInsensitive : Option Bool) : List RegExp :=
  let ic := caseInsensitive ≠ some false
  let mk := fun re => { re := re, global := true, ignoreCase := ic : RegExp }
  let termsAlt := altL (terms.map rStr)
  let ctx := context.getD .any
  (if ctx = .single_line_comment ∨ ctx = .comment ∨ ctx = .any then
    [mk (seqL [rStr "//", lazyStar dot, termsAlt])] else []) ++
  (if ctx = .block_comment ∨ ctx = .comment ∨ ctx = .any then
    [mk (seqL [rStr "/*", lazyStar anyCh, termsAlt, lazyStar anyCh, rStr "*/"])]
  else []) ++
  (if ctx = .string ∨ ctx = .any then
    [mk (altL (['\x27', '"', '\x60'].map fun q =>
      seqL [rLit q, .star true notQuote, termsAlt, .star true notQuote, rLit q]))]
  else [])

def FallbackOp.str : FallbackOp → String
  | .orOr => "||"
  | .qq => "??"
  | .andAnd => "&&"

/-- `buildFallbackValue` -/
def buildFallbackValue (operators : List FallbackOp) (values : List String) :
    List RegExp :=
  operators.map fun op =>
    gRe (seqL [rStr op.str, wsStar, altL (values.map valueToPattern)])

/-- `buildAssignmentPattern` -/
def buildAssignmentPattern (keys : List String) (values : Option (List String))
    (operators : Option (List AssignOp)) : List RegExp :=
  let keysAlt := altL (keys.map rStr)
  let ops := match operators with
    | some l => l
    | none => [.assign, .colon]
  ops.map fun op =>
    match values with
    | some (v :: vs) =>
      giRe (seqL [keysAlt, wsStar, rLit op.char, wsStar, quoteCls,
        .star true notQuote, altL ((v :: vs).map rStr), .star true notQuote,
        quoteCls])
    | _ =>
      giRe (seqL [keysAlt, wsStar, rLit op.char, wsStar, quoteCls,
        atLeast 8 notQuote, quoteCls])

/-- `buildChainedAccess` -/
def buildChainedAccess (minDepth : Nat) (operator : ChainOp) : List RegExp :=
  let opRe := match operator with
    | .optChain => rStr "?."
    | .dotChain => rLit '.'
  [gRe (atLeast minDepth (.seq opRe (rPlus rWord)))]

/-- `buildCatchHandler` -/
def buildCatchHandler (behavior : CatchBehavior) : List RegExp :=
  match behavior with
  | .empty => [gRe (seqL [catchParen, wsStar, emptyBraces])]
  | .comment_only =>
    -- first regex has the `s` flag: its `.*?` crosses line breaks
    [gRe (seqL [catchParen, wsStar, rLit '\x7b', wsStar, rStr "//",
        lazyStar anyCh, wsStar, rLit '\x7d']),
     gRe (seqL [catchParen, wsStar, rLit '\x7b', wsStar, rStr "/*",
        lazyStar anyCh, rStr "*/", wsStar, rLit '\x7d'])]
  | .log_only =>
    [gRe (seqL [catchParen, wsStar, rLit '\x7b', wsStar,
        altL [rStr "console.log", rStr "print"], wsStar, rLit '(',
        .star true (notCls [')']), rLit ')', wsStar, rOpt (rLit ';'), wsStar,
        rLit '\x7d'])]
  | .returns_value =>
    [gRe (seqL [catchParen, wsStar, rLit '\x7b', .star true (notCls ['\x7d']),
        rStr "return", wsPlus,
        altL [rStr "null", rStr "undefined", rStr "false", rStr "true",
          rStr "\x27\x27", rStr "\"\"", seqL [rLit '[', wsStar, rLit ']'],
          emptyBraces],
        wsStar, rOpt (rLit ';'), wsStar, rLit '\x7d'])]
  | .ignores_error =>
    [gRe (seqL [rStr "catch", wsStar, rLit '(', wsStar, rLit '_', wsStar,
        rLit ')'])]

/-- `buildPromiseCatch` -/
def buildPromiseCatch (behavior : PromiseBehavior)
    (silentValues : Option (List String)) : List RegExp :=
  match behavior with
  | .empty =>
    [gRe (seqL [rStr ".catch", wsStar, rLit '(', wsStar, emptyParens, wsStar,
        rStr "=>", wsStar, emptyBraces, wsStar, rLit ')']),
     gRe (seqL [rStr ".catch", wsStar, rLit '(', wsStar, rPlus rWord, wsStar,
        rStr "=>", wsStar, emptyBraces, wsStar, rLit ')'])]
  | .returns_silent =>
    let values := match silentValues with
      | some l => l
      | none => ["null", "undefined", "false", "true", "\x27\x27", "\"\""]
    [gRe (seqL [rStr ".catch", wsStar, rLit '(', wsStar, emptyParens, wsStar,
        rStr "=>", wsStar, altL (values.map valueToPattern), wsStar, rLit ')'])]
  | .ignores_param =>
    [gRe (seqL [rStr ".catch", wsStar, rLit '(', wsStar, rLit '_', wsStar,
        rStr "=>", wsStar, rOpt (rLit '\x7b'), wsStar, rOpt (rLit '\x7d'),
        wsStar, rLit ')'])]

/-- `buildCommentMarker` -/
def buildCommentMarker (markers : List String) (style : Option MarkerStyle) :
    List RegExp :=
  let markersAlt := altL (markers.map rStr)
  let st := style.getD .any
  (if st = .single ∨ st = .any then
    [{ re := seqL [rStr "//", wsStar, markersAlt, altL [rLit ':', rLit '.', rWs],
        .star true dot, .eol],
       global := true, ignoreCase := true, multiline := true }]
  else []) ++
  (if st = .block ∨ st = .any then
    [giRe (seqL [rStr "/*", lazyStar anyCh, markersAlt, lazyStar anyCh,
        rStr "*/"])]
  else [])

/-- `buildStringLiteral` -/
def buildStringLiteral (patterns : List String) (caseInsensitive : Option Bool) :
    List RegExp :=
  let ic := caseInsensitive = some true
  [{ re := seqL [quoteCls, rOpt (.star true notQuote), altL (patterns.map rStr),
      rOpt (.star true notQuote), quoteCls],
     global := true, ignoreCase := ic }]

/-- `/sk-[A-Za-z0-9]{48,}/g` — the OpenAI API-key matcher. -/
def openaiKeyRegex : RegExp := gRe (.seq (rStr "sk-") (atLeast 48 alnumCls))

/-- `buildSecretPattern` -/
def buildSecretPattern (kind : SecretKind) (customPattern : Option Re) :
    List RegExp :=
  match kind with
  | .generic =>
    let sep := rOpt (.cls ⟨false, [.lit '_', .lit '-']⟩)
    [giRe (seqL [
      altL [seqL [rStr "api", sep, rStr "key"], rStr "apikey", rStr "secret",
        rStr "password", rStr "passwd", rStr "pwd", rStr "token",
        seqL [rStr "auth", sep, rStr "token"],
        seqL [rStr "access", sep, rStr "token"],
        seqL [rStr "private", sep, rStr "key"]],
      wsStar, .cls ⟨false, [.lit ':', .lit '=']⟩, wsStar, quoteCls,
      atLeast 8 notQuote, quoteCls])]
  | .github =>
    [gRe (seqL [altL [rStr "ghp", rStr "gho", rStr "ghu", rStr "ghs", rStr "ghr"],
      rLit '_',
      atLeast 36 (.cls ⟨false, [.range 'A' 'Z', .range 'a' 'z', .range '0' '9',
        .lit '_']⟩)])]
  | .openai => [openaiKeyRegex]
  | .aws =>
    [gRe (.seq (rStr "AKIA")
      (repN 16 (.cls ⟨false, [.range '0' '9', .range 'A' 'Z']⟩)))]
  | .stripe =>
    [gRe (seqL [rStr "sk_", altL [rStr "live", rStr "test"], rLit '_',
        atLeast 24 alnumCls]),
     gRe (seqL [rStr "pk_", altL [rStr "live", rStr "test"], rLit '_',
        atLeast 24 alnumCls])]
  | .custom =>
    match customPattern with
    | some p => [gRe p]
    | none => []

/-- `[^\s'"\x60)]+` — the URL tail. -/
def urlTail : Re :=
  rPlus (.cls ⟨true, [.space, .lit '\x27', .lit '"', .lit '\x60', .lit ')']⟩)

/-- `buildUrlPattern` -/
def buildUrlPattern (protocol : Option UrlProtocol)
    (excludeLocalhost : Option Bool) : List RegExp :=
  let proto := protocol.getD .any
  (if proto = .http ∨ proto = .any then
    (if excludeLocalhost = some true then
      [gRe (seqL [rStr "http://",
        .look true (altL [rStr "localhost", rStr "127.0.0.1"]), urlTail])]
    else
      [gRe (.seq (rStr "http://") urlTail)])
  else []) ++
  (if proto = .https ∨ proto = .any then
    [gRe (.seq (rStr "https://") urlTail)]
  else [])

/-- `buildSuppressionComment` -/
def buildSuppressionComment (tools : List String) : List RegExp :=
  [gRe (seqL [rStr "//", wsStar, rOpt (rLit '@'), altL (tools.map rStr)])]

/-- `buildTypeCast` -/
def buildTypeCast (targets : List String) : List RegExp :=
  [gRe (seqL [rStr "as", wsPlus, altL (targets.map rStr), .look true rWord])]

/-- `buildComparison` -/
def buildComparison (operators : List CmpOp) : List RegExp :=
  operators.map fun op =>
    match op with
    | .looseEq => gRe (seqL [.cls ⟨true, [.lit '!', .lit '=']⟩, rStr "==",
        .cls ⟨true, [.lit '=']⟩])
    | .looseNe => gRe (seqL [rStr "!=", .cls ⟨true, [.lit '=']⟩])
    | .strictEq => gRe (rStr "===")
    | .strictNe => gRe (rStr "!==")

/-- `buildLoopPattern` -/
def buildLoopPattern (kind : LoopKind) : List RegExp :=
  let whileTrue := seqL [rStr "while", wsStar, rLit '(', wsStar, rStr "true",
    wsStar, rLit ')']
  match kind with
  | .for_in =>
    [gRe (seqL [rStr "for", wsStar, rLit '(', wsStar,
        altL [rStr "var", rStr "let", rStr "const"], wsPlus, rPlus rWord,
        wsPlus, rStr "in", wsPlus])]
  | .while_true => [gRe whileTrue]
  | .infinite =>
    [gRe whileTrue,
     gRe (seqL [rStr "for", wsStar, rLit '(', wsStar, rLit ';', wsStar,
        rLit ';', wsStar, rLit ')'])]

/-- `buildRawRegex` — `new RegExp(config.pattern, config.flags || 'g')`. -/
def buildRawRegex (pattern : Re) (flags : Option String) : List RegExp :=
  let f := (flags.getD "g").toList
  [{ re := pattern, global := f.contains 'g', ignoreCase := f.contains 'i',
     multiline := f.contains 'm' }]

/-- `buildPattern`: the main dispatcher. An unrecognized tag logs a console
warning in the source and yields the empty matcher list. -/
def buildPattern : MatchConfig → List RegExp
  | .empty_block constructs allowComments => buildEmptyBlock constructs allowComments
  | .function_call names methods constructors =>
    buildFunctionCall names methods constructors
  | .returns_only values withComment => buildReturnsOnly values withComment
  | .contains_text terms context caseInsensitive =>
    buildContainsText terms context caseInsensitive
  | .fallback_value operators values => buildFallbackValue operators values
  | .assignment_pattern keys values operators =>
    buildAssignmentPattern keys values operators
  | .chained_access minDepth operator => buildChainedAccess minDepth operator
  | .catch_handler behavior => buildCatchHandler behavior
  | .promise_catch behavior silentValues => buildPromiseCatch behavior silentValues
  | .comment_marker markers style => buildCommentMarker markers style
  | .string_literal patterns caseInsensitive =>
    buildStringLiteral patterns caseInsensitive
  | .secret_pattern kind customPattern => buildSecretPattern kind customPattern
  | .url_pattern protocol excludeLocalhost =>
    buildUrlPattern protocol excludeLocalhost
  | .suppression_comment tools => buildSuppressionComment tools
  | .type_cast targets => buildTypeCast targets
  | .comparison operators _strict => buildComparison operators
  | .loop_pattern kind => buildLoopPattern kind
  | .raw_regex pattern flags => buildRawRegex pattern flags
  | .unknownTag _ => []

/-! ### Rule compiler (`patterns/index.ts`) -/

/-- `compileDefinition`: realize the matchers of one definition. -/
def compileDefinition (d : PatternDefinition) : CompiledPattern :=
  { id := d.id, title := d.title, description := d.description,
    severity := d.severity, category := d.category, suggestion := d.suggestion,
    patterns := buildPattern d.matchSpec, verification := d.verification }

/-- `compileCategory`: compile a list of definitions. -/
def compileCategory (defs : List PatternDefinition) : List CompiledPattern :=
  defs.map compileDefinition

structure ValidationResult where
  valid : Bool
  errors : List String
  deriving Repr, DecidableEq

/-- The body of the `validateDefinitions` loop: walk the definitions carrying
the set of ids already seen and the errors accumulated so far. -/
def validateLoop : List PatternDefinition → List String → List String → List String
  | [], _, errors => errors
  | d :: rest, ids, errors =>
    let errors := if d.id ∈ ids then
        errors ++ ["Duplicate pattern ID: " ++ d.id] else errors
    let ids := if d.id ∈ ids then ids else ids ++ [d.id]
    let compiled := compileDefinition d
    let errors := if compiled.patterns.length = 0 then
        errors ++ ["Pattern " ++ d.id ++ " compiled to zero regex patterns"]
      else errors
    validateLoop rest ids errors

/-- `validateDefinitions`, parameterized by the definition list it walks. The
TypeScript function takes no argument and always validates `getDefinitions()`
— the concatenation of the four built-in category tables. -/
def validateDefinitionsOn (allDefs : List PatternDefinition) : ValidationResult :=
  let errors := validateLoop allDefs [] []
  { valid := errors.isEmpty, errors := errors }

/-! ### Scan engine (`analyzers/core.ts`, `analyzeWithPatterns`) -/

/-- Substitute `<matched_value>` (first 20 characters of the match plus an
ellipsis) and `<filename>` into every verification template command. -/
def substituteVerification (v : Verification) (matched : List Char)
    (filename : String) : Verification :=
  { v with commands := v.commands.map fun cmds => cmds.map fun cmd =>
      jsReplace (jsReplace cmd "<matched_value>"
        (String.mk (matched.take 20) ++ "...")) "<filename>" filename }

/-- Build the finding for one match occurrence (`match.index = s`,
match end `e`): the 1-based line number is the number of lines of
`code.substring(0, s)`, the snippet is that line trimmed. -/
def mkIssue (pat : CompiledPattern) (filename : String) (cs : List Char)
    (lines : List (List Char)) (s e : Nat) : Issue :=
  let lineNumber := (splitNl (cs.take s)).length
  let lineContent := lines.getD (lineNumber - 1) []
  let matched := substr cs s e
  { id := pat.id, category := pat.category, severity := pat.severity,
    title := pat.title, description := pat.description,
    line := some lineNumber,
    code := some (String.mk (jsTrim lineContent)),
    suggestion := pat.suggestion,
    verification := pat.verification.map
      (substituteVerification · matched filename) }

/-- The `while ((match = regex.exec(code)) !== null)` loop: emit one finding
per match; a non-global regex stops after its first match (the source's
infinite-loop guard). The fuel bounds the iterations; a global regex that
matched the empty string would loop forever in JavaScript (no pattern in
these tables can match the empty string). -/
def scanLoop (pat : CompiledPattern) (filename : String) (cs : List Char)
    (lines : List (List Char)) : Nat → RegExp → List Issue × RegExp
  | 0, r => ([], r)
  | fuel + 1, r =>
    match exec r cs with
    | (none, r') => ([], r')
    | (some (s, e), r') =>
      let issue := mkIssue pat filename cs lines s e
      if r'.global then
        let (rest, rf) := scanLoop pat filename cs lines fuel r'
        (issue :: rest, rf)
      else ([issue], r')

/-- Scan one regex of one compiled rule: `regex.lastIndex = 0` first, then
the match loop. Returns the findings and the regex with its final
`lastIndex` (the state it leaves behind in the shared cache). -/
def scanRegexS (pat : CompiledPattern) (filename : String) (cs : List Char)
    (lines : List (List Char)) (r : RegExp) : List Issue × RegExp :=
  scanLoop pat filename cs lines (cs.length + 1) { r with lastIndex := 0 }

/-- Scan every regex of a rule in order, threading the regex states. -/
def scanRegexList (pat : CompiledPattern) (filename : String) (cs : List Char)
    (lines : List (List Char)) : List RegExp → List Issue × List RegExp
  | [] => ([], [])
  | r :: rs =>
    let (i1, r') := scanRegexS pat filename cs lines r
    let (i2, rs') := scanRegexList pat filename cs lines rs
    (i1 ++ i2, r' :: rs')

/-- Scan every compiled rule in order, threading the shared regex states. -/
def scanPatternList (filename : String) (cs : List Char)
    (lines : List (List Char)) : List CompiledPattern → List Issue × List CompiledPattern
  | [] => ([], [])
  | p :: ps =>
    let (i1, rs) := scanRegexList p filename cs lines p.patterns
    let (i2, ps') := scanPatternList filename cs lines ps
    (i1 ++ i2, { p with patterns := rs } :: ps')

/-- `analyzeWithPatterns`, made explicit about the mutable regex state it
shares with the process-lifetime cache: takes the cached compiled rules and
returns the findings together with the rules' updated regex states. -/
def analyzeWithPatternsS (code filename : String)
    (pats : List CompiledPattern) : List Issue × List CompiledPattern :=
  scanPatternList filename code.toList (splitNl code.toList) pats

/-! ### Security rule table (`patterns/definitions/security.ts`) -/

/-- The CS-SEC003 rule (OpenAI API key), named so that the key-detection
theorem can refer to it. -/
def sec003Def : PatternDefinition :=
  { id := "CS-SEC003", title := "OpenAI API Key Detected",
    description := "An OpenAI API key was found in the code.",
    severity := .critical, category := .security,
    suggestion := some "Remove the key and rotate it in your OpenAI dashboard.",
    matchSpec := .secret_pattern .openai,
    verification := some
      { status := .needs_verification,
        assumption := some "Key is real and may have been committed to git history",
        commands := some ["git log -p -S \"sk-\" --all -- <filename>",
          "git ls-files <filename>"],
        instruction := some "Check if key was ever committed. If in history, it must be rotated",
        confirmIf := some "Key matches OpenAI format (sk- prefix, 48+ chars) and file is tracked",
        falsePositiveIf := some "Key is in documentation as example or clearly marked as fake" } }

def securityDefinitions : List PatternDefinition := [
  { id := "CS-SEC001", title := "Hardcoded Secret Detected",
    description := "Sensitive credentials appear to be hardcoded in the source code.",
    severity := .critical, category := .security,
    suggestion := some "Move secrets to environment variables or a secure vault.",
    matchSpec := .secret_pattern .generic,
    verification := some
      { status := .needs_verification,
        assumption := some "The matched string appears to be a real secret, not a placeholder or test value",
        commands := some ["git log -p -S \"<matched_value>\" -- <filename>",
          "grep -r \"<matched_value>\" .env* config/"],
        instruction := some "Verify this is a real secret, not a placeholder like \"your-api-key-here\" or test data",
        confirmIf := some "Value looks like a real credential (high entropy, no placeholder words)",
        falsePositiveIf := some "Value contains words like \"example\", \"test\", \"placeholder\", \"your-\", \"xxx\", or is clearly dummy data" } },
  { id := "CS-SEC002", title := "GitHub Token Detected",
    description := "A GitHub personal access token was found in the code.",
    severity := .critical, category := .security,
    suggestion := some "Remove the token immediately and rotate it in GitHub settings.",
    matchSpec := .secret_pattern .github,
    verification := some
      { status := .needs_verification,
        assumption := some "Token is real and may have been committed to git history",
        commands := some ["git log -p -S \"<matched_value>\" --all",
          "git ls-files <filename>"],
        instruction := some "Check if token was ever committed. If in history, it must be rotated even if removed now",
        confirmIf := some "Token pattern matches GitHub format (ghp_, gho_, etc.) and file is tracked",
        falsePositiveIf := some "Token is in a test file with obviously fake data or documentation example" } },
  sec003Def,
  { id := "CS-SEC004", title := "AWS Access Key Detected",
    description := "An AWS access key ID was found in the code.",
    severity := .critical, category := .security,
    suggestion := some "Remove and rotate the AWS credentials immediately.",
    matchSpec := .secret_pattern .aws,
    verification := some
      { status := .needs_verification,
        assumption := some "Key is real and may have been committed to git history",
        commands := some ["git log -p -S \"AKIA\" --all -- <filename>",
          "git ls-files <filename>"],
        instruction := some "Check if key was ever committed. AWS keys in git history are compromised",
        confirmIf := some "Key matches AWS format (AKIA prefix, 16 chars) and file is tracked",
        falsePositiveIf := some "Key is in documentation or test fixtures with fake data" } },
  { id := "CS-SEC005", title := "Stripe API Key Detected",
    description := "A Stripe API key was found in the code.",
    severity := .critical, category := .security,
    suggestion := some "Remove and rotate the Stripe key immediately in your Stripe dashboard.",
    matchSpec := .secret_pattern .stripe },
  { id := "CS-SEC010", title := "Potential SQL Injection",
    description := "String interpolation in SQL query may allow injection attacks.",
    severity := .critical, category := .security,
    suggestion := some "Use parameterized queries or prepared statements instead.",
    -- (?:execute|query|raw)\s*\(\s*['"\x60].*?\$\{.*?\}.*?['"\x60]\s*\) gi
    matchSpec := .raw_regex (seqL [altL [rStr "execute", rStr "query", rStr "raw"],
      wsStar, rLit '(', wsStar, quoteCls, lazyStar dot, rLit '$', rLit '\x7b',
      lazyStar dot, rLit '\x7d', lazyStar dot, quoteCls, wsStar, rLit ')'])
      (some "gi") },
  { id := "CS-SEC011", title := "SQL Query String Concatenation",
    description := "Concatenating strings in SQL queries is vulnerable to injection.",
    severity := .high, category := .security,
    suggestion := some "Use parameterized queries with placeholders.",
    -- (?:execute|query)\s*\(\s*['"\x60].*?\+.*?['"\x60]\s*\) gi
    matchSpec := .raw_regex (seqL [altL [rStr "execute", rStr "query"], wsStar,
      rLit '(', wsStar, quoteCls, lazyStar dot, rLit '+', lazyStar dot,
      quoteCls, wsStar, rLit ')']) (some "gi") },
  { id := "CS-SEC020", title := "Potential XSS via innerHTML",
    description := "Setting innerHTML with dynamic content can lead to XSS.",
    severity := .high, category := .security,
    suggestion := some "Use textContent or sanitize HTML before insertion.",
    -- innerHTML\s*=\s*(?!['"\x60]<) g
    matchSpec := .raw_regex (seqL [rStr "innerHTML", wsStar, rLit '=', wsStar,
      .look true (.seq quoteCls (rLit '<'))]) (some "g") },
  { id := "CS-SEC021", title := "React dangerouslySetInnerHTML Usage",
    description := "Using dangerouslySetInnerHTML can expose the app to XSS.",
    severity := .medium, category := .security,
    suggestion := some "Ensure content is properly sanitized before rendering.",
    matchSpec := .function_call ["dangerouslySetInnerHTML"] (some false) },
  { id := "CS-SEC030", title := "eval() Usage Detected",
    description := "eval() can execute arbitrary code and is a security risk.",
    severity := .high, category := .security,
    suggestion := some "Avoid eval(). Use safer alternatives like JSON.parse().",
    matchSpec := .function_call ["eval"] },
  { id := "CS-SEC031", title := "Dynamic Function Constructor",
    description := "Creating functions from strings is similar to eval().",
    severity := .high, category := .security,
    suggestion := some "Avoid dynamic function creation from user input.",
    matchSpec := .function_call ["Function"] none (some true) },
  { id := "CS-SEC032", title := "document.write() Usage",
    description := "document.write() can overwrite the document and enable XSS.",
    severity := .medium, category := .security,
    suggestion := some "Use DOM manipulation methods instead.",
    -- document\.write\s*\( g
    matchSpec := .raw_regex (seqL [rStr "document.write", wsStar, rLit '('])
      (some "g") },
  { id := "CS-SEC040", title := "Weak Hash Algorithm",
    description := "MD5 and SHA1 are cryptographically broken.",
    severity := .high, category := .security,
    suggestion := some "Use SHA-256 or bcrypt for password hashing.",
    matchSpec := .function_call ["md5", "sha1"] },
  { id := "CS-SEC041", title := "Insecure Random for Security",
    description := "Math.random() is not cryptographically secure.",
    severity := .medium, category := .security,
    suggestion := some "Use crypto.randomBytes() or crypto.getRandomValues().",
    -- Math\.random\s*\(\) g
    matchSpec := .raw_regex (seqL [rStr "Math.random", wsStar, rStr "()"])
      (some "g") },
  { id := "CS-SEC050", title := "Insecure HTTP URL",
    description := "Using HTTP instead of HTTPS exposes data in transit.",
    severity := .medium, category := .security,
    suggestion := some "Use HTTPS for all external URLs.",
    matchSpec := .url_pattern (some .http) (some true) },
  { id := "CS-SEC051", title := "SSL Certificate Validation Disabled",
    description := "Disabling certificate validation enables MITM attacks.",
    severity := .critical, category := .security,
    suggestion := some "Never disable SSL certificate validation in production.",
    -- rejectUnauthorized\s*:\s*false g
    matchSpec := .raw_regex (seqL [rStr "rejectUnauthorized", wsStar, rLit ':',
      wsStar, rStr "false"]) (some "g") },
  { id := "CS-SEC060", title := "Wildcard CORS Origin",
    description := "Allowing all origins can expose the API to unauthorized access.",
    severity := .medium, category := .security,
    suggestion := some "Specify allowed origins explicitly.",
    -- Access-Control-Allow-Origin['":]+\s*\* g
    matchSpec := .raw_regex (seqL [rStr "Access-Control-Allow-Origin",
      rPlus (.cls ⟨false, [.lit '\x27', .lit '"', .lit ':']⟩), wsStar,
      rLit '*']) (some "g") }]

/-! ### Deceptive rule table (`patterns/definitions/deceptive.ts`) -/

def deceptiveDefinitions : List PatternDefinition := [
  { id := "CS-DEC001", title := "Empty Catch Block",
    description := "Silently swallowing errors makes debugging impossible.",
    severity := .high, category := .deceptive,
    suggestion := some "At minimum, log the error. Better: handle it appropriately or rethrow.",
    matchSpec := .catch_handler .empty },
  { id := "CS-DEC002", title := "Catch Block with Only Comments",
    description := "A catch block with only comments still swallows errors.",
    severity := .high, category := .deceptive,
    suggestion := some "Add actual error handling, not just comments.",
    matchSpec := .catch_handler .comment_only },
  { id := "CS-DEC003", title := "Catch with Only Console.log",
    description := "Logging alone does not handle the error - execution continues as if nothing happened.",
    severity := .medium, category := .deceptive,
    suggestion := some "Decide: should execution continue? Add recovery logic or rethrow.",
    matchSpec := .catch_handler .log_only },
  { id := "CS-DEC010", title := "Empty Promise Catch",
    description := "Silently ignoring promise rejections hides async errors.",
    severity := .high, category := .deceptive,
    suggestion := some "Handle the rejection or let it propagate for proper error handling.",
    matchSpec := .promise_catch .empty },
  { id := "CS-DEC011", title := "Promise Catch Returns Silent Value",
    description := "Returning a value from catch masks the error - callers won't know something failed.",
    severity := .high, category := .deceptive,
    suggestion := some "Return a distinguishable error state or rethrow.",
    matchSpec := .promise_catch .returns_silent
      (some ["null", "undefined", "false", "true", "\x27\x27", "\"\""]) },
  { id := "CS-DEC012", title := "Catch with Ignored Error Parameter",
    description := "Using _ for error parameter signals intentional ignore - but is it really safe to ignore?",
    severity := .medium, category := .deceptive,
    suggestion := some "Document why ignoring this error is safe, or handle it.",
    matchSpec := .promise_catch .ignores_param },
  { id := "CS-DEC020", title := "Empty Array Fallback",
    description := "Falling back to [] can mask failed data fetching - code continues as if data was empty.",
    severity := .medium, category := .deceptive,
    suggestion := some "Distinguish between \"no data\" and \"failed to fetch\". Consider throwing or returning null.",
    matchSpec := .fallback_value [.orOr] ["[]"] },
  { id := "CS-DEC021", title := "Empty Object Fallback",
    description := "Falling back to \x7b\x7d can hide parsing or fetching failures.",
    severity := .medium, category := .deceptive,
    suggestion := some "Handle the undefined/null case explicitly rather than masking it.",
    matchSpec := .fallback_value [.orOr] ["\x7b\x7d"] },
  { id := "CS-DEC022", title := "Nullish Coalescing to Empty Value",
    description := "Defaulting to empty values with ?? can mask null responses that indicate errors.",
    severity := .low, category := .deceptive,
    suggestion := some "Verify that null/undefined truly means \"use default\" vs \"something went wrong\".",
    matchSpec := .fallback_value [.qq] ["[]", "\x7b\x7d", "\x27\x27", "\"\""] },
  { id := "CS-DEC030", title := "Excessive Optional Chaining",
    description := "Deep optional chaining (4+ levels) often masks structural problems or missing validation.",
    severity := .medium, category := .deceptive,
    suggestion := some "Validate data shape upfront rather than optional-chaining through uncertain structures.",
    matchSpec := .chained_access 4 .optChain },
  { id := "CS-DEC040", title := "Silent Error Return",
    description := "Returning null/false on error with a comment - callers may not check for this.",
    severity := .high, category := .deceptive,
    suggestion := some "Throw an error or return a Result/Either type that forces handling.",
    matchSpec := .returns_only ["null", "undefined", "false"]
      (some ["error", "fail", "todo", "fixme"]) },
  { id := "CS-DEC041", title := "Silent Return on Error",
    description := "Returning silently when an error is detected - no logging, no propagation.",
    severity := .high, category := .deceptive,
    suggestion := some "Log the error or throw it. Silent returns make debugging a nightmare.",
    -- if\s*\([^)]*error[^)]*\)\s*\{\s*return\s*;?\s*\} gi
    matchSpec := .raw_regex (seqL [rStr "if", wsStar, rLit '(',
      .star true (notCls [')']), rStr "error", .star true (notCls [')']),
      rLit ')', wsStar, rLit '\x7b', wsStar, rStr "return", wsStar,
      rOpt (rLit ';'), wsStar, rLit '\x7d']) (some "gi") },
  { id := "CS-DEC050", title := "Timeout as Error Workaround",
    description := "Using setTimeout to \"fix\" timing issues often masks race conditions.",
    severity := .medium, category := .deceptive,
    suggestion := some "Fix the underlying race condition. Use proper async coordination.",
    -- setTimeout\s*\([^,]+,\s*\d+\s*\)\s*;?\s*\/\/.*?(?:fix|hack|workaround|retry) gi
    matchSpec := .raw_regex (seqL [rStr "setTimeout", wsStar, rLit '(',
      rPlus (notCls [',']), rLit ',', wsStar, rPlus rDigit, wsStar, rLit ')',
      wsStar, rOpt (rLit ';'), wsStar, rStr "//", lazyStar dot,
      altL [rStr "fix", rStr "hack", rStr "workaround", rStr "retry"]])
      (some "gi") },
  { id := "CS-DEC060", title := "Linter/Type Check Suppression",
    description := "Suppressing type errors or linter warnings may hide real issues.",
    severity := .low, category := .deceptive,
    suggestion := some "Fix the underlying issue. If suppression is needed, document why.",
    matchSpec := .suppression_comment
      ["ts-ignore", "ts-expect-error", "eslint-disable", "noqa"] },
  { id := "CS-DEC061", title := "TypeScript \"as any\" Cast",
    description := "Casting to any defeats TypeScript's type safety.",
    severity := .medium, category := .deceptive,
    suggestion := some "Use proper type definitions or unknown with type guards.",
    matchSpec := .type_cast ["any"] },
  { id := "CS-DEC070", title := "Fake Success Response",
    description := "Returning success without actually doing the work.",
    severity := .critical, category := .deceptive,
    suggestion := some "Implement the actual functionality or return an honest error.",
    -- return\s*\{\s*(?:success|ok|status)\s*:\s*true[^}]*\}\s*;?\s*\/\/.*?(?:todo|fixme|hack) gi
    matchSpec := .raw_regex (seqL [rStr "return", wsStar, rLit '\x7b', wsStar,
      altL [rStr "success", rStr "ok", rStr "status"], wsStar, rLit ':', wsStar,
      rStr "true", .star true (notCls ['\x7d']), rLit '\x7d', wsStar,
      rOpt (rLit ';'), wsStar, rStr "//", lazyStar dot,
      altL [rStr "todo", rStr "fixme", rStr "hack"]]) (some "gi") },
  { id := "CS-DEC080", title := "console.error Without Throw",
    description := "Logging an error but continuing execution - the error may not be handled.",
    severity := .low, category := .deceptive,
    suggestion := some "Consider if execution should continue. If not, throw after logging.",
    -- console\.error\s*\([^)]+\)\s*;?\s*(?!\s*throw) g
    matchSpec := .raw_regex (seqL [rStr "console.error", wsStar, rLit '(',
      rPlus (notCls [')']), rLit ')', wsStar, rOpt (rLit ';'), wsStar,
      .look true (.seq wsStar (rStr "throw"))]) (some "g") }]

/-- The security-category scan (`analyzeSecurityWithPatterns`). The regex
state held in the process-lifetime cache does not affect the findings (every
scan resets `lastIndex` first — see the idempotence theorem), so this wrapper
scans a freshly compiled table. -/
def analyzeSecurityWithPatterns (code filename : String) : List Issue :=
  (analyzeWithPatternsS code filename (compileCategory securityDefinitions)).1

/-- The deceptive-category scan (`analyzeDeceptiveWithPatterns`). -/
def analyzeDeceptiveWithPatterns (code filename : String) : List Issue :=
  (analyzeWithPatternsS code filename (compileCategory deceptiveDefinitions)).1

/-! ### Error rule table (`patterns/definitions/errors.ts`) -/

/-- `(?:\d+\.\d+|\w+)` — a float literal or a word. -/
def numOrWord : Re :=
  altL [seqL [rPlus rDigit, rLit '.', rPlus rDigit], rPlus rWord]

/-- `[-\s]?` -/
def dashSpaceOpt : Re := rOpt (.cls ⟨false, [.lit '-', .space]⟩)

def errorDefinitions : List PatternDefinition := [
  { id := "CS-ERR030", title := "Loose Equality (==)",
    description := "Loose equality can cause unexpected type coercion.",
    severity := .low, category := .error,
    suggestion := some "Use strict equality (===) instead.",
    matchSpec := .comparison [.looseEq] },
  { id := "CS-ERR031", title := "Loose Inequality (!=)",
    description := "Loose inequality can cause unexpected type coercion.",
    severity := .low, category := .error,
    suggestion := some "Use strict inequality (!==) instead.",
    matchSpec := .comparison [.looseNe] },
  { id := "CS-ERR032", title := "Assignment in Condition",
    description := "Assignment inside if condition - likely meant to use ==.",
    severity := .high, category := .error,
    suggestion := some "Use === for comparison. If assignment is intentional, wrap in extra parens.",
    -- if\s*\(\s*\w+\s*=\s*[^=] g
    matchSpec := .raw_regex (seqL [rStr "if", wsStar, rLit '(', wsStar,
      rPlus rWord, wsStar, rLit '=', wsStar, notCls ['=']]) (some "g") },
  { id := "CS-ERR050", title := "for...in on Array",
    description := "for...in iterates over keys, not values - often wrong for arrays.",
    severity := .medium, category := .error,
    suggestion := some "Use for...of, forEach(), or traditional for loop for arrays.",
    matchSpec := .loop_pattern .for_in },
  { id := "CS-ERR051", title := "Infinite Loop Pattern",
    description := "while(true) requires explicit break - easy to create infinite loop.",
    severity := .medium, category := .error,
    suggestion := some "Ensure there is always a reachable break condition.",
    matchSpec := .loop_pattern .while_true },
  { id := "CS-ERR020", title := "Variable Redeclaration with var",
    description := "Same variable declared twice with var - potential bug.",
    severity := .medium, category := .error,
    suggestion := some "Use let/const and avoid redeclaring variables.",
    -- var\s+(\w+)[\s\S]*?var\s+\1\s*= g
    matchSpec := .raw_regex (seqL [rStr "var", wsPlus, .grp 1 (rPlus rWord),
      lazyStar anyCh, rStr "var", wsPlus, .bref 1, wsStar, rLit '='])
      (some "g") },
  { id := "CS-ERR060", title := "Floating Point Comparison",
    description := "Direct comparison of floats (especially money) can fail due to precision.",
    severity := .high, category := .error,
    suggestion := some "Use epsilon comparison or integer cents for money.",
    -- (?:\d+\.\d+|\w+)\s*===?\s*(?:\d+\.\d+|\w+).*?(?:price|amount|total|sum|money|currency|rate) gi
    matchSpec := .raw_regex (seqL [numOrWord, wsStar, rStr "==",
      rOpt (rLit '='), wsStar, numOrWord, lazyStar dot,
      altL [rStr "price", rStr "amount", rStr "total", rStr "sum",
        rStr "money", rStr "currency", rStr "rate"]]) (some "gi") },
  { id := "CS-ERR070", title := "Array Mutation During Iteration",
    description := "Modifying array while iterating can cause skipped elements.",
    severity := .high, category := .error,
    suggestion := some "Create a new array or iterate backwards when mutating.",
    -- \.forEach\s*\([^)]*\)\s*\x7b[^\x7d]*(?:\.push|\.pop|\.shift|\.splice) g
    matchSpec := .raw_regex (seqL [rStr ".forEach", wsStar, rLit '(',
      .star true (notCls [')']), rLit ')', wsStar, rLit '\x7b',
      .star true (notCls ['\x7d']),
      altL [rStr ".push", rStr ".pop", rStr ".shift", rStr ".splice"]])
      (some "g") },
  { id := "CS-ERR080", title := "parseInt Without Radix",
    description := "parseInt without radix can give unexpected results.",
    severity := .low, category := .error,
    suggestion := some "Always specify radix: parseInt(x, 10).",
    -- parseInt\s*\(\s*[^,)]+\s*\)(?!\s*,) g
    matchSpec := .raw_regex (seqL [rStr "parseInt", wsStar, rLit '(', wsStar,
      rPlus (notCls [',', ')']), wsStar, rLit ')',
      .look true (.seq wsStar (rLit ','))]) (some "g") },
  { id := "CS-ERR090", title := "Potentially Unreachable Code",
    description := "Code after return statement will never execute.",
    severity := .medium, category := .error,
    suggestion := some "Remove unreachable code or fix control flow.",
    -- return\s+[^;]+;\s*\n\s*(?![\s\x7d]|case\s|default:) g
    matchSpec := .raw_regex (seqL [rStr "return", wsPlus,
      rPlus (notCls [';']), rLit ';', wsStar, rLit '\n', wsStar,
      .look true (altL [.cls ⟨false, [.space, .lit '\x7d']⟩,
        .seq (rStr "case") rWs, rStr "default:"])]) (some "g") },
  { id := "CS-ERR100", title := "delete Operator on Array",
    description := "delete leaves holes in arrays - length unchanged.",
    severity := .medium, category := .error,
    suggestion := some "Use splice() to remove array elements.",
    -- delete\s+\w+\[\w+\] g
    matchSpec := .raw_regex (seqL [rStr "delete", wsPlus, rPlus rWord,
      rLit '[', rPlus rWord, rLit ']']) (some "g") },
  { id := "CS-ERR110", title := "Potential \"this\" Binding Issue",
    description := "Using \"this\" in setTimeout callback may not refer to expected context.",
    severity := .medium, category := .error,
    suggestion := some "Use arrow function or .bind(this).",
    -- setTimeout\s*\(\s*(?:this\.\w+|function\s*\([^)]*\)\s*\x7b[^\x7d]*this\.) g
    matchSpec := .raw_regex (seqL [rStr "setTimeout", wsStar, rLit '(', wsStar,
      altL [.seq (rStr "this.") (rPlus rWord),
        seqL [rStr "function", wsStar, rLit '(', .star true (notCls [')']),
          rLit ')', wsStar, rLit '\x7b', .star true (notCls ['\x7d']),
          rStr "this."]]]) (some "g") },
  { id := "CS-ERR120", title := "Constructor Without \"new\"",
    description := "Calling constructor without new may not work as expected.",
    severity := .low, category := .error,
    suggestion := some "Use \"new\" keyword with constructors.",
    -- (?:^|[^.])\b(?:Date|Array|Object|Map|Set|Promise)\s*\(\s*\) g
    matchSpec := .raw_regex (seqL [altL [.bol, notCls ['.']], .wb,
      altL [rStr "Date", rStr "Array", rStr "Object", rStr "Map", rStr "Set",
        rStr "Promise"], wsStar, rLit '(', wsStar, rLit ')']) (some "g") },
  { id := "CS-ERR130", title := "Magic Number",
    description := "Hardcoded number without context makes code hard to maintain.",
    severity := .low, category := .error,
    suggestion := some "Extract magic numbers into named constants.",
    -- (?:if|while|for|===?|!==?|[<>]=?)\s*\(?\s*(?:\d\x7b3,\x7d|\d+\.\d+)\s*(?!\s*(?:px|em|rem|%|vh|vw|s|ms)) g
    matchSpec := .raw_regex (seqL [
      altL [rStr "if", rStr "while", rStr "for",
        .seq (rStr "==") (rOpt (rLit '=')), .seq (rStr "!=") (rOpt (rLit '=')),
        .seq (.cls ⟨false, [.lit '<', .lit '>']⟩) (rOpt (rLit '='))],
      wsStar, rOpt (rLit '('), wsStar,
      altL [atLeast 3 rDigit, seqL [rPlus rDigit, rLit '.', rPlus rDigit]],
      wsStar,
      .look true (.seq wsStar (altL [rStr "px", rStr "em", rStr "rem",
        rStr "%", rStr "vh", rStr "vw", rStr "s", rStr "ms"]))]) (some "g") },
  { id := "CS-ERR140", title := "Await in Constructor",
    description := "Constructors cannot be async - await will not work as expected.",
    severity := .high, category := .error,
    suggestion := some "Use a static factory method for async initialization.",
    -- constructor\s*\([^)]*\)\s*\x7b[^\x7d]*await\s+ g
    matchSpec := .raw_regex (seqL [rStr "constructor", wsStar, rLit '(',
      .star true (notCls [')']), rLit ')', wsStar, rLit '\x7b',
      .star true (notCls ['\x7d']), rStr "await", wsPlus]) (some "g") }]

/-! ### Placeholder rule table (`patterns/definitions/placeholders.ts`) -/

def placeholderDefinitions : List PatternDefinition := [
  { id := "CS-PH001", title := "TODO Comment Found",
    description := "Incomplete work marker found in code.",
    severity := .low, category := .placeholder,
    suggestion := some "Complete or remove the TODO before shipping.",
    matchSpec := .comment_marker ["TODO"] (some .any) },
  { id := "CS-PH002", title := "FIXME Comment Found",
    description := "Known issue marker found - this should be fixed.",
    severity := .medium, category := .placeholder,
    suggestion := some "Fix the issue or create a ticket to track it.",
    matchSpec := .comment_marker ["FIXME"] (some .any) },
  { id := "CS-PH003", title := "HACK Comment Found",
    description := "Workaround marker found - technical debt.",
    severity := .medium, category := .placeholder,
    suggestion := some "Document why the hack exists and plan to remove it.",
    matchSpec := .comment_marker ["HACK"] (some .any) },
  { id := "CS-PH004", title := "XXX Comment Found",
    description := "Attention marker found - requires review.",
    severity := .low, category := .placeholder,
    suggestion := some "Address the flagged issue or remove the marker.",
    matchSpec := .comment_marker ["XXX"] (some .any) },
  { id := "CS-PH010", title := "Lorem Ipsum Placeholder Text",
    description := "Placeholder text found - replace with real content.",
    severity := .medium, category := .placeholder,
    suggestion := some "Replace with actual content before release.",
    matchSpec := .contains_text ["lorem ipsum"] (some .any) (some true) },
  { id := "CS-PH011", title := "Common Placeholder Value",
    description := "Generic placeholder value detected.",
    severity := .low, category := .placeholder,
    suggestion := some "Replace with meaningful values.",
    matchSpec := .string_literal ["foo", "bar", "baz", "qux", "test", "dummy",
      "sample", "example", "placeholder"] (some true) },
  { id := "CS-PH020", title := "Test Email Address",
    description := "Placeholder email found - may not be intended for production.",
    severity := .medium, category := .placeholder,
    suggestion := some "Remove or replace with proper configuration.",
    -- [\x27"\x60]test@(?:test|example|dummy|sample)\.[a-z]+[\x27"\x60] gi
    matchSpec := .raw_regex (seqL [quoteCls, rStr "test@",
      altL [rStr "test", rStr "example", rStr "dummy", rStr "sample"],
      rLit '.', rPlus (.cls ⟨false, [.range 'a' 'z']⟩), quoteCls])
      (some "gi") },
  { id := "CS-PH021", title := "Common Test Password/Value",
    description := "Potentially insecure placeholder password or test value.",
    severity := .high, category := .placeholder,
    suggestion := some "Remove test credentials before deployment.",
    matchSpec := .string_literal ["123", "1234", "12345", "123456",
      "password", "admin", "root", "test"] (some true) },
  { id := "CS-PH022", title := "Localhost URL in Code",
    description := "Hardcoded localhost URL may not work in production.",
    severity := .medium, category := .placeholder,
    suggestion := some "Use environment variables for URLs.",
    -- (?:localhost|127\.0\.0\.1):\d\x7b4,5\x7d g
    matchSpec := .raw_regex (seqL [altL [rStr "localhost", rStr "127.0.0.1"],
      rLit ':', repN 4 rDigit, rOpt rDigit]) (some "g") },
  { id := "CS-PH023", title := "Placeholder String Pattern",
    description := "Obvious placeholder pattern detected.",
    severity := .low, category := .placeholder,
    suggestion := some "Replace with actual values.",
    matchSpec := .string_literal ["xxx", "yyy", "zzz", "aaa", "bbb", "ccc"]
      (some true) },
  { id := "CS-PH030", title := "Test Phone Number (555)",
    description := "The 555 prefix is reserved for fictional use.",
    severity := .low, category := .placeholder,
    suggestion := some "Use proper phone number handling or config.",
    -- [\x27"\x60](?:\+1)?[\s-]?555[\s-]?\d\x7b3\x7d[\s-]?\d\x7b4\x7d[\x27"\x60] g
    matchSpec := .raw_regex (seqL [quoteCls, rOpt (rStr "+1"),
      rOpt (.cls ⟨false, [.space, .lit '-']⟩), rStr "555",
      rOpt (.cls ⟨false, [.space, .lit '-']⟩), repN 3 rDigit,
      rOpt (.cls ⟨false, [.space, .lit '-']⟩), repN 4 rDigit, quoteCls])
      (some "g") },
  { id := "CS-PH031", title := "Obviously Fake ID Number",
    description := "Placeholder ID number pattern detected.",
    severity := .medium, category := .placeholder,
    suggestion := some "Remove test data before production.",
    -- [\x27"\x60](?:000[-\s]?00[-\s]?0000|111[-\s]?11[-\s]?1111|123[-\s]?45[-\s]?6789)[\x27"\x60] g
    matchSpec := .raw_regex (seqL [quoteCls, altL [
      seqL [rStr "000", dashSpaceOpt, rStr "00", dashSpaceOpt, rStr "0000"],
      seqL [rStr "111", dashSpaceOpt, rStr "11", dashSpaceOpt, rStr "1111"],
      seqL [rStr "123", dashSpaceOpt, rStr "45", dashSpaceOpt, rStr "6789"]],
      quoteCls]) (some "g") },
  { id := "CS-PH040", title := "Not Implemented Error",
    description := "Function explicitly marked as not implemented.",
    severity := .high, category := .placeholder,
    suggestion := some "Implement the function or remove the dead code.",
    matchSpec := .contains_text ["not implemented", "implement me",
      "coming soon"] (some .string) (some true) },
  { id := "CS-PH041", title := "TBD/Placeholder Return Value",
    description := "Code returns a placeholder instead of real value.",
    severity := .medium, category := .placeholder,
    suggestion := some "Implement actual logic or handle the case properly.",
    -- (?:return|=)\s*[\x27"\x60](?:TBD|TBA|N\/A|pending|placeholder)[\x27"\x60] gi
    matchSpec := .raw_regex (seqL [altL [rStr "return", rLit '='], wsStar,
      quoteCls, altL [rStr "TBD", rStr "TBA", rStr "N/A", rStr "pending",
        rStr "placeholder"], quoteCls]) (some "gi") },
  { id := "CS-PH050", title := "Debug Console.log",
    description := "Debug logging statement left in code.",
    severity := .low, category := .placeholder,
    suggestion := some "Remove debug statements or use a proper logger.",
    -- console\.log\s*\(\s*[\x27"\x60](?:debug|test|here|working|checkpoint|\d+)[\x27"\x60]\s*\) gi
    matchSpec := .raw_regex (seqL [rStr "console.log", wsStar, rLit '(',
      wsStar, quoteCls, altL [rStr "debug", rStr "test", rStr "here",
        rStr "working", rStr "checkpoint", rPlus rDigit], quoteCls, wsStar,
      rLit ')']) (some "gi") },
  { id := "CS-PH051", title := "Debugger Statement",
    description := "Debugger statement will pause execution in browser.",
    severity := .medium, category := .placeholder,
    suggestion := some "Remove debugger statements before committing.",
    -- debugger\s*; g
    matchSpec := .raw_regex (seqL [rStr "debugger", wsStar, rLit ';'])
      (some "g") },
  { id := "CS-PH052", title := "Debug Alert",
    description := "Debug alert left in code.",
    severity := .medium, category := .placeholder,
    suggestion := some "Remove debug alerts.",
    -- alert\s*\(\s*[\x27"\x60](?:test|debug|here|working)[\x27"\x60]\s*\) gi
    matchSpec := .raw_regex (seqL [rStr "alert", wsStar, rLit '(', wsStar,
      quoteCls, altL [rStr "test", rStr "debug", rStr "here", rStr "working"],
      quoteCls, wsStar, rLit ')']) (some "gi") },
  { id := "CS-PH060", title := "Commented Out Code",
    description := "Code appears to be commented out rather than deleted.",
    severity := .low, category := .placeholder,
    suggestion := some "Remove dead code - use version control to recover if needed.",
    -- \/\/\s*(?:const|let|var|function|class|if|for|while|return)\s+\w+ g
    matchSpec := .raw_regex (seqL [rStr "//", wsStar,
      altL [rStr "const", rStr "let", rStr "var", rStr "function",
        rStr "class", rStr "if", rStr "for", rStr "while", rStr "return"],
      wsPlus, rPlus rWord]) (some "g") },
  { id := "CS-PH070", title := "Test ID in Code",
    description := "Hardcoded test ID found.",
    severity := .medium, category := .placeholder,
    suggestion := some "Use proper ID generation or configuration.",
    matchSpec := .string_literal ["test-id", "test_id", "testid", "fake-id",
      "temp-id"] (some true) }]

/-- The error-category scan (`analyzeErrorsWithPatterns`). -/
def analyzeErrorsWithPatterns (code filename : String) : List Issue :=
  (analyzeWithPatternsS code filename (compileCategory errorDefinitions)).1

/-- The placeholder-category scan (`analyzePlaceholdersWithPatterns`). -/
def analyzePlaceholdersWithPatterns (code filename : String) : List Issue :=
  (analyzeWithPatternsS code filename (compileCategory placeholderDefinitions)).1

/-! ### Idiom/advisory engine (`cloudflare/src/analyzers/patterns.ts`) -/

inductive PatternLevel where
  | architectural | design | code | all
  deriving Repr, DecidableEq

structure IncLocation where
  line : Nat
  code : String
  deriving Repr, DecidableEq

/-- One competing variant kept by `detectInconsistencies`. -/
structure IncVariant where
  approach : String
  locations : List IncLocation
  count : Nat
  deriving Repr, DecidableEq

structure PatternInconsistency where
  id : String
  title : String
  level : PatternLevel
  severity : Severity
  description : String
  variants : List IncVariant
  recommendation : String
  deriving Repr, DecidableEq

structure VariantDef where
  name : String
  pattern : RegExp
  deriving Repr, DecidableEq

structure InconsistencyDetector where
  id : String
  title : String
  level : PatternLevel
  variants : List VariantDef
  recommendation : String
  deriving Repr, DecidableEq

/-- `/async\s+\w|await\s+/g` — the async/await variant matcher of the
Mixed Async Styles concern. -/
def asyncAwaitPattern : RegExp :=
  gRe (.alt (seqL [rStr "async", wsPlus, rWord]) (seqL [rStr "await", wsPlus]))

/-- `/\.then\s*\(/g` — the Promise-chain variant matcher. -/
def promiseChainPattern : RegExp := gRe (seqL [rStr ".then", wsStar, rLit '('])

/-- `/,\s*(?:callback|cb)\s*\)|,\s*\(err,/g` — the callback variant matcher. -/
def callbackPattern : RegExp :=
  gRe (.alt
    (seqL [rLit ',', wsStar, altL [rStr "callback", rStr "cb"], wsStar,
      rLit ')'])
    (seqL [rLit ',', wsStar, rLit '(', rStr "err", rLit ',']))

/-- The fixed recommendation text of the Mixed Async Styles detector. -/
def mixedAsyncRecommendation : String :=
  "Standardize on async/await for consistency and readability. Convert Promise chains with await and refactor callbacks to return Promises."

/-- The Mixed Async Styles concern (CS-INC001). -/
def inc001Detector : InconsistencyDetector :=
  { id := "CS-INC001", title := "Mixed Async Styles", level := .code,
    variants := [
      { name := "async/await", pattern := asyncAwaitPattern },
      { name := "Promise chains", pattern := promiseChainPattern },
      { name := "Callbacks", pattern := callbackPattern }],
    recommendation := mixedAsyncRecommendation }

/-- The Mixed Error Handling concern (CS-INC002). -/
def inc002Detector : InconsistencyDetector :=
  { id := "CS-INC002", title := "Mixed Error Handling", level := .code,
    variants := [
      -- try\s*\{[\s\S]*?catch
      { name := "try/catch", pattern := gRe (seqL [rStr "try", wsStar,
          rLit '\x7b', lazyStar anyCh, rStr "catch"]) },
      -- \.catch\s*\(
      { name := ".catch()",
        pattern := gRe (seqL [rStr ".catch", wsStar, rLit '(']) },
      -- \(\s*err(?:or)?\s*(?:,|\))
      { name := "Error callbacks", pattern := gRe (seqL [rLit '(', wsStar,
          rStr "err", rOpt (rStr "or"), wsStar, altL [rLit ',', rLit ')']]) },
      -- (?:Result|Either|Ok|Err)<
      { name := "Result types", pattern := gRe (seqL
          [altL [rStr "Result", rStr "Either", rStr "Ok", rStr "Err"],
           rLit '<']) }],
    recommendation := "Choose one primary error handling strategy. Result types are explicit, try/catch is familiar. Avoid mixing." }

/-- The Mixed Export Styles concern (CS-INC003). -/
def inc003Detector : InconsistencyDetector :=
  { id := "CS-INC003", title := "Mixed Export Styles", level := .code,
    variants := [
      -- export\s+(?:const|function|class|interface|type)\s+\w+
      { name := "Named exports", pattern := gRe (seqL [rStr "export", wsPlus,
          altL [rStr "const", rStr "function", rStr "class", rStr "interface",
            rStr "type"], wsPlus, rPlus rWord]) },
      -- export\s+default
      { name := "Default exports",
        pattern := gRe (seqL [rStr "export", wsPlus, rStr "default"]) },
      -- module\.exports\s*=
      { name := "module.exports",
        pattern := gRe (seqL [rStr "module.exports", wsStar, rLit '=']) }],
    recommendation := "Prefer named exports for better tree-shaking and IDE support. Reserve default exports for main entry points only." }

/-- The Mixed Null Handling concern (CS-INC004). -/
def inc004Detector : InconsistencyDetector :=
  { id := "CS-INC004", title := "Mixed Null Handling", level := .code,
    variants := [
      { name := "Optional chaining (?.)", pattern := gRe (rStr "?.") },
      { name := "Nullish coalescing (??)", pattern := gRe (rStr "??") },
      -- \|\|\s*(?:null|undefined|''|""|\[\]|\{\})
      { name := "Logical OR (||)", pattern := gRe (seqL [rStr "||", wsStar,
          altL [rStr "null", rStr "undefined", rStr "\x27\x27", rStr "\"\"",
            rStr "[]", rStr "\x7b\x7d"]]) },
      -- (?:!==?|===?)\s*(?:null|undefined)
      { name := "Explicit checks", pattern := gRe (seqL
          [altL [seqL [rStr "!=", rOpt (rLit '=')],
            seqL [rStr "==", rOpt (rLit '=')]], wsStar,
           altL [rStr "null", rStr "undefined"]]) }],
    recommendation := "Use ?. and ?? consistently. They handle null/undefined specifically, while || treats all falsy values the same." }

/-- The Mixed Function Styles concern (CS-INC005). -/
def inc005Detector : InconsistencyDetector :=
  { id := "CS-INC005", title := "Mixed Function Styles", level := .code,
    variants := [
      -- (?:const|let)\s+\w+\s*=\s*(?:\([^)]*\)|[^=])\s*=>
      { name := "Arrow functions", pattern := gRe (seqL
          [altL [rStr "const", rStr "let"], wsPlus, rPlus rWord, wsStar,
           rLit '=', wsStar,
           altL [seqL [rLit '(', .star true (notCls [')']), rLit ')'],
             .cls ⟨true, [.lit '=']⟩], wsStar, rStr "=>"]) },
      -- function\s+\w+\s*\(
      { name := "Function declarations", pattern := gRe (seqL
          [rStr "function", wsPlus, rPlus rWord, wsStar, rLit '(']) },
      -- \w+\s*\([^)]*\)\s*\{
      { name := "Method shorthand", pattern := gRe (seqL [rPlus rWord, wsStar,
          rLit '(', .star true (notCls [')']), rLit ')', wsStar,
          rLit '\x7b']) }],
    recommendation := "Use arrow functions for callbacks and short functions. Use declarations for hoisting needs and named stack traces." }

/-- The `inconsistencyDetectors` table (five concerns, each with its
competing variant regexes, all `/.../g`). -/
def inconsistencyDetectors : List InconsistencyDetector :=
  [inc001Detector, inc002Detector, inc003Detector, inc004Detector,
   inc005Detector]

/-- The `while ((match = variant.pattern.exec(code)) !== null)` loop of
`detectInconsistencies`, collecting every match span (with the same
non-global break guard). -/
def collectLoop (cs : List Char) : Nat → RegExp → List (Nat × Nat)
  | 0, _ => []
  | fuel + 1, r =>
    match exec r cs with
    | (none, _) => []
    | (some (s, e), r') =>
      (s, e) :: (if r.global then collectLoop cs fuel r' else [])

/-- All match spans of a pattern over a buffer (after `lastIndex = 0`). -/
def matchSpans (r : RegExp) (cs : List Char) : List (Nat × Nat) :=
  collectLoop cs (cs.length + 1) { r with lastIndex := 0 }

/-- `{ line, code: lines[lineNumber - 1]?.trim() || '' }` for a match span. -/
def mkIncLocation (cs : List Char) (lines : List (List Char))
    (span : Nat × Nat) : IncLocation :=
  let lineNumber := (splitNl (cs.take span.1)).length
  { line := lineNumber, code := String.mk (jsTrim (lines.getD (lineNumber - 1) [])) }

/-- The inner loop of `detectInconsistencies` for one concern: keep the
variants with at least one occurrence (first three locations, full count). -/
def detectorVariants (cs : List Char) (lines : List (List Char))
    (d : InconsistencyDetector) : List IncVariant :=
  d.variants.filterMap fun v =>
    let ms := matchSpans v.pattern cs
    if ms.length > 0 then
      some { approach := v.name,
             locations := (ms.map (mkIncLocation cs lines)).take 3,
             count := ms.length }
    else none

/-- One concern's contribution: with two or more surviving variants, one
finding whose severity is `medium` for three or more variants and `low`
otherwise, and whose recommendation is the detector's fixed text. -/
def detectorFinding (cs : List Char) (lines : List (List Char))
    (d : InconsistencyDetector) : List PatternInconsistency :=
  let variants := detectorVariants cs lines d
  if variants.length ≥ 2 then
    [{ id := d.id, title := d.title, level := d.level,
       severity := if variants.length ≥ 3 then .medium else .low,
       description := "Found " ++ toString variants.length ++
         " different approaches being used",
       variants := variants, recommendation := d.recommendation }]
  else []

/-- `detectInconsistencies`: run every concern of the table over the buffer. -/
def detectInconsistencies (code : String) : List PatternInconsistency :=
  let cs := code.toList
  let lines := splitNl cs
  inconsistencyDetectors.flatMap (detectorFinding cs lines)

inductive ActionType where
  | fix_inconsistency | implement_pattern | refactor
  deriving Repr, DecidableEq

inductive Effort where
  | low | medium | high
  deriving Repr, DecidableEq

inductive SugPriority where
  | high | medium | low
  deriving Repr, DecidableEq

inductive SugActionType where
  | refactor | add | replace | consider
  deriving Repr, DecidableEq

structure CodeChange where
  before : String
  after : String
  file : Option String := none
  line : Option Nat := none
  deriving Repr, DecidableEq

structure SugAction where
  type : SugActionType
  description : String
  steps : List String
  codeChange : Option CodeChange := none
  deriving Repr, DecidableEq

structure SugApproach where
  name : String
  description : String
  why : String
  benefits : List String := []
  tradeoffs : List String := []
  -- `example` in the source (`example` is a Lean keyword)
  exampleText : String := ""
  deriving Repr, DecidableEq

structure CurrentApproach where
  name : String
  description : String
  -- `example` in the source (`example` is a Lean keyword)
  exampleText : String
  line : Option Nat := none
  deriving Repr, DecidableEq

structure PatternSuggestion where
  id : String
  title : String
  level : PatternLevel
  priority : SugPriority
  currentApproach : CurrentApproach
  suggestedApproach : SugApproach
  action : SugAction
  deriving Repr, DecidableEq

structure StepCode where
  action : String
  target : String
  content : String
  deriving Repr, DecidableEq

structure ActionStep where
  order : Nat
  instruction : String
  code : Option StepCode := none
  deriving Repr, DecidableEq

structure ActionItem where
  id : String
  priority : Nat
  type : ActionType
  title : String
  reason : String
  effort : Effort
  steps : List ActionStep
  acceptPrompt : String
  deriving Repr, DecidableEq

/-- `inc.variants.reduce((a, b) => a.count > b.count ? a : b)`: the variant
with the highest occurrence count; with strict `>` a tie keeps `b`, so the
last enumerated variant wins ties. (JavaScript's `reduce` throws on an
empty array; an emitted inconsistency always has at least two variants, so
the `[]` case is unreachable.) -/
def dominantVariant : List IncVariant → IncVariant
  | [] => { approach := "", locations := [], count := 0 }
  | v :: rest => rest.foldl (fun a b => if a.count > b.count then a else b) v

/-- `f i a` over a list with indices starting at `i0`. -/
def mapIdxFrom (f : Nat → α → β) : Nat → List α → List β
  | _, [] => []
  | i, a :: as => f i a :: mapIdxFrom f (i + 1) as

/-- The action item synthesized from one inconsistency. -/
def itemOfInconsistency (inc : PatternInconsistency) : ActionItem :=
  let dominant := dominantVariant inc.variants
  { id := "ACT-" ++ inc.id,
    priority := if inc.severity = .high then 1
      else if inc.severity = .medium then 2 else 3,
    type := .fix_inconsistency,
    title := "Standardize: " ++ inc.title,
    reason := inc.description,
    effort := if (inc.variants.foldl (fun sum v => sum + v.count) 0) > 10
      then .high else .medium,
    steps := { order := 1, instruction := "Adopt \"" ++ dominant.approach ++
        "\" as the standard (most commonly used: " ++ toString dominant.count ++
        " instances)" } ::
      mapIdxFrom (fun i v =>
        { order := i + 2,
          instruction := "Convert " ++ toString v.count ++ " instance(s) of \"" ++
            v.approach ++ "\" to \"" ++ dominant.approach ++ "\"" }) 0
        (inc.variants.filter fun v => v.approach ≠ dominant.approach),
    acceptPrompt := "Shall I refactor to use \"" ++ dominant.approach ++
      "\" consistently?" }

/-- The action item synthesized from one suggestion. -/
def itemOfSuggestion (sug : PatternSuggestion) : ActionItem :=
  { id := "ACT-" ++ sug.id,
    priority := if sug.priority = .high then 1
      else if sug.priority = .medium then 2 else 3,
    type := if sug.action.type = .refactor then .refactor else .implement_pattern,
    title := sug.title,
    reason := sug.suggestedApproach.why,
    effort := if sug.action.steps.length > 4 then .high
      else if sug.action.steps.length > 2 then .medium else .low,
    steps := mapIdxFrom (fun i step =>
      { order := i + 1, instruction := step,
        code := if i = 0 then
            sug.action.codeChange.map fun cc =>
              { action := "replace", target := cc.before, content := cc.after }
          else none }) 0 sug.action.steps,
    acceptPrompt := "Would you like me to implement the " ++
      sug.suggestedApproach.name ++ "?" }

/-- Stable insertion: place `x` before the first element of strictly larger
priority, after every element of smaller-or-equal priority. -/
def insertByPriority (x : ActionItem) : List ActionItem → List ActionItem
  | [] => [x]
  | y :: ys =>
    if y.priority ≤ x.priority then y :: insertByPriority x ys
    else x :: y :: ys

/-- `items.sort((a, b) => a.priority - b.priority)` — a stable ascending sort
(JavaScript's `Array.prototype.sort` is stable). -/
def sortByPriority : List ActionItem → List ActionItem
  | [] => []
  | x :: xs => insertByPriority x (sortByPriority xs)

/-- `generateActionItems`: inconsistency items first, then suggestion items,
stably sorted by ascending priority. -/
def generateActionItems (inconsistencies : List PatternInconsistency)
    (suggestions : List PatternSuggestion) : List ActionItem :=
  sortByPriority
    (inconsistencies.map itemOfInconsistency ++ suggestions.map itemOfSuggestion)

/-! ### Quality scores (`report.ts` and the `generate_report` tool handler) -/

structure AnalysisSummary where
  totalIssues : Nat
  critical : Nat
  high : Nat
  medium : Nat
  low : Nat
  strengths : Nat
  deriving Repr, DecidableEq

/-- The score computed inside `generateHtmlReport`:
`Math.max(0, Math.min(100, 100 - penalty + strengths * 2))` with
`penalty = 25·critical + 15·high + 5·medium + 1·low`. -/
def htmlReportScore (s : AnalysisSummary) : Int :=
  let maxPenalty : Int := 100
  let penalty : Int :=
    s.critical * 25 + s.high * 15 + s.medium * 5 + s.low * 1
  max 0 (min 100 (maxPenalty - penalty + s.strengths * 2))

/-- The score printed by the `generate_report` tool handler:
`Math.max(0, 100 - (critical * 25 + high * 15 + medium * 5 + low))`. -/
def generateReportToolScore (s : AnalysisSummary) : Int :=
  max 0 (100 - (s.critical * 25 + s.high * 15 + s.medium * 5 + s.low : Int))

/-! ## Verified properties -/

/-- The score formula stated by the specification:
`max(0, min(100, 100 − 25·critical − 15·high − 5·medium − 1·low + 2·strengths))`. -/
def specScoreFormula (s : AnalysisSummary) : Int :=
  max 0 (min 100 (100 - 25 * (s.critical : Int) - 15 * s.high - 5 * s.medium
    - 1 * s.low + 2 * s.strengths))

/-- C3: the HTML report computes exactly the specified score formula (64 for
1 critical, 1 high, 2 strengths), but the `generate_report` tool handler
recomputes the score it prints inline, without the strengths bonus and
without the upper clamp, and reports 60 for the same summary — the two scores
exposed in the same tool response disagree. -/
theorem generate_report_scores_disagree :
    (∀ s : AnalysisSummary, htmlReportScore s = specScoreFormula s) ∧
    htmlReportScore ⟨2, 1, 1, 0, 0, 2⟩ = 64 ∧
    generateReportToolScore ⟨2, 1, 1, 0, 0, 2⟩ = 60 := by
  refine ⟨fun s => ?_, by decide, by decide⟩
  simp only [htmlReportScore, specScoreFormula]
  ring_nf

/-- C2 counterexample: a well-formed `secret_pattern` spec of kind `custom`
without a `customPattern` compiles to the empty matcher list. -/
theorem buildPattern_custom_secret_empty :
    buildPattern (.secret_pattern .custom none) = [] := rfl

/-- Does a spec select at least one matcher source?  `buildPattern` yields a
matcher exactly when it does: an `empty_block` needs one recognized
construct, `fallback_value` and `comparison` need a non-empty operator list,
`assignment_pattern` must not pass an explicitly empty operator list, a
`custom` secret needs its pattern, and an unrecognized tag never yields
matchers. -/
def specSelectsMatcher : MatchConfig → Bool
  | .empty_block constructs _ =>
    constructs.any fun c =>
      c = "catch" || c = "finally" || c = ".catch" || c = ".then" || c = ".finally"
  | .fallback_value operators _ => !operators.isEmpty
  | .assignment_pattern _ _ operators => operators ≠ some []
  | .secret_pattern kind customPattern => kind ≠ .custom || customPattern.isSome
  | .comparison operators _ => !operators.isEmpty
  | .unknownTag _ => false
  | _ => true

/-- C2 (amended): `buildPattern` is total (it cannot throw), and for every
spec that selects at least one matcher source it returns at least one
matcher. -/
theorem buildPattern_nonempty (c : MatchConfig)
    (h : specSelectsMatcher c = true) : 1 ≤ (buildPattern c).length := by
  cases c with
  | empty_block constructs allowComments =>
    simp only [specSelectsMatcher, List.any_eq_true, Bool.or_eq_true,
      decide_eq_true_eq] at h
    obtain ⟨x, hx, hrec⟩ := h
    simp only [buildPattern, buildEmptyBlock]
    induction constructs with
    | nil => simp at hx
    | cons y ys ih =>
      simp only [List.flatMap_cons, List.length_append]
      cases hx with
      | head =>
        rcases hrec with (((h | h) | h) | h) | h <;>
          (cases allowComments with
          | none => simp [h] <;> omega
          | some b => cases b <;> simp [h] <;> omega)
      | tail _ hx =>
        have := ih hx
        simp only [List.length_flatMap] at this ⊢
        omega
  | function_call names methods constructors =>
    simp only [buildPattern, buildFunctionCall, List.length_append,
      List.length_cons]
    omega
  | returns_only values withComment =>
    simp only [buildPattern, buildReturnsOnly]
    rcases withComment with _ | ⟨_ | ⟨w, ws⟩⟩ <;> simp
  | contains_text terms context caseInsensitive =>
    simp only [buildPattern, buildContainsText]
    rcases context with _ | ctx
    · simp [Option.getD]
    · cases ctx <;> simp
  | fallback_value operators values =>
    simp only [buildPattern, buildFallbackValue, List.length_map]
    cases operators with
    | nil => simp [specSelectsMatcher] at h
    | cons _ _ => simp
  | assignment_pattern keys values operators =>
    simp only [specSelectsMatcher, ne_eq, decide_not] at h
    simp only [buildPattern, buildAssignmentPattern, List.length_map]
    rcases operators with _ | ⟨_ | ⟨o, os⟩⟩ <;> simp_all
  | chained_access minDepth operator =>
    simp [buildPattern, buildChainedAccess]
  | catch_handler behavior =>
    cases behavior <;> simp [buildPattern, buildCatchHandler]
  | promise_catch behavior silentValues =>
    cases behavior <;> simp [buildPattern, buildPromiseCatch]
  | comment_marker markers style =>
    simp only [buildPattern, buildCommentMarker]
    rcases style with _ | st
    · simp [Option.getD]
    · cases st <;> simp
  | string_literal patterns caseInsensitive =>
    simp [buildPattern, buildStringLiteral]
  | secret_pattern kind customPattern =>
    simp only [specSelectsMatcher, ne_eq, Bool.or_eq_true, decide_not] at h
    cases kind <;> simp only [buildPattern, buildSecretPattern] <;> try simp
    rcases customPattern with _ | p
    · simp at h
    · simp
  | url_pattern protocol excludeLocalhost =>
    simp only [buildPattern, buildUrlPattern]
    rcases protocol with _ | proto
    · simp [Option.getD]
    · cases proto <;> cases excludeLocalhost with
      | none => simp
      | some b => cases b <;> simp
  | suppression_comment tools => simp [buildPattern, buildSuppressionComment]
  | type_cast targets => simp [buildPattern, buildTypeCast]
  | comparison operators strict =>
    simp only [buildPattern, buildComparison, List.length_map]
    cases operators with
    | nil => simp [specSelectsMatcher] at h
    | cons _ _ => simp
  | loop_pattern kind =>
    cases kind <;> simp [buildPattern, buildLoopPattern]
  | raw_regex pattern flags => simp [buildPattern, buildRawRegex]
  | unknownTag tag => simp [specSelectsMatcher] at h

/-- Witness for `buildPattern_nonempty` at the empty-catch-handler spec. -/
theorem buildPattern_nonempty_witness :
    specSelectsMatcher (.catch_handler .empty) = true ∧
    1 ≤ (buildPattern (.catch_handler .empty)).length :=
  ⟨by decide, buildPattern_nonempty (.catch_handler .empty) (by decide)⟩

/-- The empty-catch test buffer of the specification. -/
def emptyCatchBuffer : String := "try \x7b risky(); \x7d catch (e) \x7b \x7d"

/-- C8: on `try { risky(); } catch (e) { }` the deceptive scan yields exactly
one finding — rule CS-DEC001, category `deceptive`, severity `high` — and no
other rule of any of the four rule tables (security, deceptive, placeholder,
error) fires on this buffer. -/
theorem empty_catch_single_finding (filename : String) :
    analyzeDeceptiveWithPatterns emptyCatchBuffer filename =
      [{ id := "CS-DEC001", category := .deceptive, severity := .high,
         title := "Empty Catch Block",
         description := "Silently swallowing errors makes debugging impossible.",
         line := some 1,
         code := some "try \x7b risky(); \x7d catch (e) \x7b \x7d",
         suggestion := some "At minimum, log the error. Better: handle it appropriately or rethrow.",
         verification := none }] ∧
    analyzeSecurityWithPatterns emptyCatchBuffer filename = [] ∧
    analyzePlaceholdersWithPatterns emptyCatchBuffer filename = [] ∧
    analyzeErrorsWithPatterns emptyCatchBuffer filename = [] :=
  ⟨rfl, rfl, rfl, rfl⟩

/-! ### Validation lemmas (C4, C5) -/

/-- Errors already accumulated pass through the validation loop. -/
theorem validateLoop_append (defs : List PatternDefinition)
    (ids errors : List String) :
    validateLoop defs ids errors = errors ++ validateLoop defs ids [] := by
  induction defs generalizing ids errors with
  | nil => simp [validateLoop]
  | cons d rest ih =>
    simp only [validateLoop]
    by_cases h1 : d.id ∈ ids <;>
      by_cases h2 : (compileDefinition d).patterns.length = 0 <;>
      simp only [h1, h2, if_pos, if_neg, if_true, if_false, ite_true, ite_false,
        List.nil_append, List.append_nil, not_false_iff] <;>
      rw [ih] <;> (conv_rhs => rw [ih]) <;> simp [List.append_assoc]

theorem mem_validateLoop_of_mem (defs : List PatternDefinition)
    (ids errors : List String) (s : String) (h : s ∈ errors) :
    s ∈ validateLoop defs ids errors := by
  rw [validateLoop_append]
  exact List.mem_append_left _ h

/-- If some definition of the list carries an id already seen, the duplicate
error for it lands in the loop's output. -/
theorem validateLoop_dup_of_seen (defs : List PatternDefinition)
    (ids errors : List String) (x : PatternDefinition) (hx : x ∈ defs)
    (hid : x.id ∈ ids) :
    ("Duplicate pattern ID: " ++ x.id) ∈ validateLoop defs ids errors := by
  induction defs generalizing ids errors with
  | nil => simp at hx
  | cons d rest ih =>
    simp only [validateLoop]
    cases hx with
    | head =>
      simp only [hid, if_true, ite_true]
      apply mem_validateLoop_of_mem
      by_cases h2 : (compileDefinition x).patterns.length = 0 <;> simp [h2]
    | tail _ hx =>
      apply ih _ _ hx
      by_cases h1 : d.id ∈ ids <;> simp [h1, hid]

/-- If some definition of the list compiles to zero matchers, the
zero-matcher error for it lands in the loop's output. -/
theorem validateLoop_zero_matchers (defs : List PatternDefinition)
    (ids errors : List String) (x : PatternDefinition) (hx : x ∈ defs)
    (hzero : (compileDefinition x).patterns = []) :
    ("Pattern " ++ x.id ++ " compiled to zero regex patterns") ∈
      validateLoop defs ids errors := by
  induction defs generalizing ids errors with
  | nil => simp at hx
  | cons d rest ih =>
    simp only [validateLoop]
    cases hx with
    | head =>
      have h2 : (compileDefinition x).patterns.length = 0 := by
        rw [hzero]; rfl
      rw [if_pos h2]
      apply mem_validateLoop_of_mem
      simp
    | tail _ hx => exact ih _ _ hx

/-- C4 (amended): the compile step itself never rejects anything, but
whenever the definition list handed to the validation check contains two
definitions with the same id, `validateDefinitions` reports `valid = false`
with an error naming the duplicated id. -/
theorem validate_reports_duplicate_id (l1 l2 l3 : List PatternDefinition)
    (d e : PatternDefinition) (hid : d.id = e.id) :
    ("Duplicate pattern ID: " ++ e.id) ∈
      (validateDefinitionsOn (l1 ++ d :: l2 ++ e :: l3)).errors ∧
    (validateDefinitionsOn (l1 ++ d :: l2 ++ e :: l3)).valid = false := by
  have key : ∀ (l1 : List PatternDefinition) (ids errors : List String),
      ("Duplicate pattern ID: " ++ e.id) ∈
        validateLoop (l1 ++ d :: l2 ++ e :: l3) ids errors := by
    intro l1
    induction l1 with
    | nil =>
      intro ids errors
      simp only [List.nil_append, validateLoop]
      apply validateLoop_dup_of_seen
      · exact List.mem_append_right _ (List.mem_cons_self _ _)
      · rw [← hid]
        by_cases h1 : d.id ∈ ids <;> simp [h1]
    | cons a l1' ih =>
      intro ids errors
      simp only [List.cons_append, validateLoop]
      exact ih _ _
  have hmem := key l1 [] []
  refine ⟨hmem, ?_⟩
  simp only [validateDefinitionsOn]
  have : validateLoop (l1 ++ d :: l2 ++ e :: l3) [] [] ≠ [] :=
    List.ne_nil_of_mem hmem
  simpa [List.isEmpty_iff] using this

def dupDefA : PatternDefinition :=
  { id := "CS-DUP", title := "Loose equality", description := "Uses ==.",
    severity := .low, category := .error, matchSpec := .comparison [.looseEq] }

def dupDefB : PatternDefinition :=
  { id := "CS-DUP", title := "Strict inequality", description := "Uses !==.",
    severity := .low, category := .error, matchSpec := .comparison [.strictNe] }

/-- C4 counterexample: fed a rule set with a duplicated id, the compile step
(`compileCategory`, which `getCompiledPatterns` calls) silently produces a
compiled rule set — one compiled rule per definition, both carrying the
duplicated id; it has no error channel and performs no validation. -/
theorem compileCategory_accepts_duplicates :
    ((compileCategory [dupDefA, dupDefB]).map fun p => p.id) =
      ["CS-DUP", "CS-DUP"] ∧
    (compileCategory [dupDefA, dupDefB]).length = 2 := ⟨rfl, rfl⟩

/-- Witness for `validate_reports_duplicate_id` on a concrete two-element
rule set. -/
theorem validate_reports_duplicate_id_witness :
    dupDefA.id = dupDefB.id ∧
    (("Duplicate pattern ID: " ++ dupDefB.id) ∈
        (validateDefinitionsOn ([] ++ dupDefA :: [] ++ dupDefB :: [])).errors ∧
      (validateDefinitionsOn ([] ++ dupDefA :: [] ++ dupDefB :: [])).valid = false) :=
  ⟨rfl, validate_reports_duplicate_id [] [] [] dupDefA dupDefB rfl⟩

def unknownTagDef : PatternDefinition :=
  { id := "CS-UNK", title := "Mystery rule",
    description := "A rule whose match spec tag is not recognized.",
    severity := .low, category := .error, matchSpec := .unknownTag "mystery" }

/-- C5 counterexample: a rule whose MatchSpec carries an unrecognized tag is
not rejected by the compile step — `compileDefinition` returns a compiled
rule with an empty matcher list (the source only logs a console warning), and
the scan engine then silently ignores the rule. -/
theorem unknown_tag_compiles_to_zero_matchers :
    (compileDefinition unknownTagDef).patterns = [] ∧
    (analyzeWithPatternsS "const x = fetchData(url);" "app.ts"
      [compileDefinition unknownTagDef]).1 = [] := ⟨rfl, rfl⟩

/-- C5 (amended): the unknown tag surfaces only through the separate
`validateDefinitions` diagnostic, which reports the rule as compiling to zero
matchers and marks the rule set invalid. -/
theorem validate_reports_unknown_tag (defs : List PatternDefinition)
    (d : PatternDefinition) (tag : String) (hmem : d ∈ defs)
    (htag : d.matchSpec = .unknownTag tag) :
    ("Pattern " ++ d.id ++ " compiled to zero regex patterns") ∈
      (validateDefinitionsOn defs).errors ∧
    (validateDefinitionsOn defs).valid = false := by
  have hzero : (compileDefinition d).patterns = [] := by
    simp [compileDefinition, htag, buildPattern]
  have hmem' := validateLoop_zero_matchers defs [] [] d hmem hzero
  refine ⟨hmem', ?_⟩
  simp only [validateDefinitionsOn]
  have : validateLoop defs [] [] ≠ [] := List.ne_nil_of_mem hmem'
  simpa [List.isEmpty_iff] using this

/-- Witness for `validate_reports_unknown_tag` on a one-element rule set. -/
theorem validate_reports_unknown_tag_witness :
    unknownTagDef ∈ [unknownTagDef] ∧
    unknownTagDef.matchSpec = .unknownTag "mystery" ∧
    (("Pattern " ++ unknownTagDef.id ++ " compiled to zero regex patterns") ∈
        (validateDefinitionsOn [unknownTagDef]).errors ∧
      (validateDefinitionsOn [unknownTagDef]).valid = false) :=
  ⟨List.mem_cons_self _ _, rfl,
    validate_reports_unknown_tag [unknownTagDef] unknownTagDef "mystery"
      (List.mem_cons_self _ _) rfl⟩

/-! ### Advisory-engine invariants (C10, C1) -/

theorem mem_insertByPriority (x a : ActionItem) (l : List ActionItem) :
    x ∈ insertByPriority a l ↔ x = a ∨ x ∈ l := by
  induction l with
  | nil => simp [insertByPriority]
  | cons y ys ih =>
    simp only [insertByPriority]
    split <;> (first
      | (simp only [List.mem_cons, ih]; tauto)
      | (simp only [List.mem_cons, ih]))

theorem mem_sortByPriority (x : ActionItem) (l : List ActionItem) :
    x ∈ sortByPriority l ↔ x ∈ l := by
  induction l with
  | nil => simp [sortByPriority]
  | cons y ys ih =>
    simp [sortByPriority, mem_insertByPriority, ih]

/-- Every inconsistency finding carries severity `medium` or `low` — the
`high` severity is never assigned by `detectInconsistencies`. -/
theorem detectInconsistencies_severity (code : String)
    (inc : PatternInconsistency) (h : inc ∈ detectInconsistencies code) :
    inc.severity = .medium ∨ inc.severity = .low := by
  simp only [detectInconsistencies, List.mem_flatMap] at h
  obtain ⟨d, _, h⟩ := h
  simp only [detectorFinding] at h
  split at h
  · rw [List.mem_singleton] at h
    subst h
    dsimp only
    split
    · exact Or.inl rfl
    · exact Or.inr rfl
  · simp at h

/-- C10: every action item synthesized from an inconsistency
(`type = fix_inconsistency`) has priority 2 or 3, never 1 — the
severity-`high` branch of `generateActionItems` is unreachable for them. -/
theorem fix_inconsistency_priority (code : String)
    (suggestions : List PatternSuggestion) (item : ActionItem)
    (hmem : item ∈ generateActionItems (detectInconsistencies code) suggestions)
    (htype : item.type = .fix_inconsistency) :
    item.priority = 2 ∨ item.priority = 3 := by
  rw [generateActionItems, mem_sortByPriority, List.mem_append] at hmem
  cases hmem with
  | inl h =>
    rw [List.mem_map] at h
    obtain ⟨inc, hinc, rfl⟩ := h
    have hsev := detectInconsistencies_severity code inc hinc
    simp only [itemOfInconsistency]
    rcases hsev with hs | hs <;> simp [hs]
  | inr h =>
    rw [List.mem_map] at h
    obtain ⟨sug, _, rfl⟩ := h
    exfalso
    simp only [itemOfSuggestion] at htype
    split at htype <;> simp at htype

/-- The mixed-async buffer where Promise chains dominate. -/
def thenDominantBuffer : String := "await a\np.then(f)\nq.then(g)"

/-- The action item that the advisory engine synthesizes for
`thenDominantBuffer`. -/
def thenDominantItem : ActionItem :=
  { id := "ACT-CS-INC001", priority := 3, type := .fix_inconsistency,
    title := "Standardize: Mixed Async Styles",
    reason := "Found 2 different approaches being used",
    effort := .medium,
    steps := [
      { order := 1, instruction := "Adopt \"Promise chains\" as the standard (most commonly used: 2 instances)" },
      { order := 2, instruction := "Convert 1 instance(s) of \"async/await\" to \"Promise chains\"" }],
    acceptPrompt := "Shall I refactor to use \"Promise chains\" consistently?" }

/-- Witness for `fix_inconsistency_priority` on a concrete buffer. -/
theorem fix_inconsistency_priority_witness :
    thenDominantItem ∈
      generateActionItems (detectInconsistencies thenDominantBuffer) [] ∧
    thenDominantItem.type = .fix_inconsistency ∧
    (thenDominantItem.priority = 2 ∨ thenDominantItem.priority = 3) :=
  ⟨by decide, by decide,
    fix_inconsistency_priority thenDominantBuffer [] thenDominantItem
      (by decide) (by decide)⟩

/-- A mixed-async buffer where async/await dominates (2 occurrences against
1 `.then` chain). -/
def asyncDominantBuffer : String := "await a\nawait b\np.then(f)"

/-- C1 counterexample: the recommendation of the Mixed Async Styles finding
is the detector's fixed text. On `asyncDominantBuffer` the dominant variant
is async/await; on `thenDominantBuffer` the occurrence counts are swapped and
Promise chains dominate — yet the recommendation is the identical string in
both cases (it always tells the user to standardize on async/await), so it
does not name the highest-count variant and does not change when the counts
swap. -/
theorem mixed_async_recommendation_is_static :
    ((detectInconsistencies asyncDominantBuffer).map fun i =>
        (i.id, (dominantVariant i.variants).approach, i.recommendation)) =
      [("CS-INC001", "async/await", mixedAsyncRecommendation)] ∧
    ((detectInconsistencies thenDominantBuffer).map fun i =>
        (i.id, (dominantVariant i.variants).approach, i.recommendation)) =
      [("CS-INC001", "Promise chains", mixedAsyncRecommendation)] :=
  ⟨by decide, by decide⟩

/-- Auxiliary: a detector whose id differs from the one filtered for
contributes nothing to the filtered findings. -/
theorem filter_detectorFinding_ne (cs : List Char) (lines : List (List Char))
    (d : InconsistencyDetector) (s : String) (hd : (d.id = s) = False) :
    (detectorFinding cs lines d).filter (fun i => i.id = s) = [] := by
  simp only [detectorFinding]
  split <;> simp [List.filter, hd]

/-- C1 (amended): a buffer with at least one occurrence of the async/await
variant and at least one of the `.then` variant yields exactly one
InconsistencyFinding for Mixed Async Styles, and its recommendation is the
detector's fixed recommendation text, whichever variant occurs more often
(the dominant variant is named only in the action item synthesized later). -/
theorem mixed_async_single_finding (code : String)
    (hasync : 0 < (matchSpans asyncAwaitPattern code.toList).length)
    (hthen : 0 < (matchSpans promiseChainPattern code.toList).length) :
    (((detectInconsistencies code).filter fun i => i.id = "CS-INC001").map
        fun i => (i.title, i.recommendation)) =
      [("Mixed Async Styles", mixedAsyncRecommendation)] := by
  simp only [detectInconsistencies, inconsistencyDetectors, List.flatMap_cons,
    List.flatMap_nil, List.append_nil, List.filter_append]
  rw [filter_detectorFinding_ne _ _ inc002Detector _ (by simp [inc002Detector]),
    filter_detectorFinding_ne _ _ inc003Detector _ (by simp [inc003Detector]),
    filter_detectorFinding_ne _ _ inc004Detector _ (by simp [inc004Detector]),
    filter_detectorFinding_ne _ _ inc005Detector _ (by simp [inc005Detector])]
  simp only [detectorFinding, detectorVariants, inc001Detector,
    List.filterMap_cons, List.filterMap_nil, List.append_nil]
  rw [if_pos hasync, if_pos hthen]
  by_cases hcb : 0 < (matchSpans callbackPattern code.toList).length
  · rw [if_pos hcb]
    simp [List.filter]
  · rw [if_neg hcb]
    simp [List.filter]

/-- Witness for `mixed_async_single_finding` on `asyncDominantBuffer`. -/
theorem mixed_async_single_finding_witness :
    0 < (matchSpans asyncAwaitPattern asyncDominantBuffer.toList).length ∧
    0 < (matchSpans promiseChainPattern asyncDominantBuffer.toList).length ∧
    (((detectInconsistencies asyncDominantBuffer).filter
          fun i => i.id = "CS-INC001").map
        fun i => (i.title, i.recommendation)) =
      [("Mixed Async Styles", mixedAsyncRecommendation)] :=
  ⟨by decide, by decide,
    mixed_async_single_finding asyncDominantBuffer (by decide) (by decide)⟩

/-! ### Idempotence of the scan despite shared regex state (C6) -/

/-- `exec` changes nothing but `lastIndex`. -/
theorem exec_state (r : RegExp) (cs : List Char) :
    ∃ m, (exec r cs).2 = { r with lastIndex := m } := by
  obtain ⟨re, ic, ml, g, li⟩ := r
  simp only [exec]
  rcases searchFrom ⟨re, ic, ml, g, li⟩ cs (if g then li else 0) with _ | ⟨s, e⟩ <;>
    cases g <;> simp

/-- A scan loop changes nothing but `lastIndex` of the regex it drives. -/
theorem scanLoop_state (pat : CompiledPattern) (fn : String) (cs : List Char)
    (lines : List (List Char)) :
    ∀ fuel r, ∃ m, (scanLoop pat fn cs lines fuel r).2 = { r with lastIndex := m } := by
  intro fuel
  induction fuel with
  | zero =>
    intro r
    obtain ⟨re, ic, ml, g, li⟩ := r
    exact ⟨li, rfl⟩
  | succ f ih =>
    intro r
    simp only [scanLoop]
    rcases hx : exec r cs with ⟨res, r1⟩
    obtain ⟨k, hk⟩ := exec_state r cs
    rw [hx] at hk
    dsimp only at hk
    subst hk
    rcases res with _ | ⟨s, e⟩
    · exact ⟨k, rfl⟩
    · dsimp only
      by_cases hg : ({ r with lastIndex := k } : RegExp).global
      · rw [if_pos hg]
        obtain ⟨m, hm⟩ := ih { r with lastIndex := k }
        exact ⟨m, by simpa using hm⟩
      · rw [if_neg hg]
        exact ⟨k, rfl⟩

/-- The findings of one regex do not depend on its incoming `lastIndex`: the
loop resets it first. -/
theorem scanRegexS_lastIndex (pat : CompiledPattern) (fn : String)
    (cs : List Char) (lines : List (List Char)) (r : RegExp) (n : Nat) :
    scanRegexS pat fn cs lines { r with lastIndex := n } =
      scanRegexS pat fn cs lines r := rfl

theorem scanRegexList_cons (pat : CompiledPattern) (fn : String)
    (cs : List Char) (lines : List (List Char)) (r : RegExp) (rs : List RegExp) :
    scanRegexList pat fn cs lines (r :: rs) =
      ((scanRegexS pat fn cs lines r).1 ++ (scanRegexList pat fn cs lines rs).1,
       (scanRegexS pat fn cs lines r).2 :: (scanRegexList pat fn cs lines rs).2) :=
  rfl

/-- Scanning a regex list a second time, starting from the states the first
scan left behind, reproduces the first scan's findings and states. -/
theorem scanRegexList_idem (pat : CompiledPattern) (fn : String)
    (cs : List Char) (lines : List (List Char)) :
    ∀ rs, scanRegexList pat fn cs lines ((scanRegexList pat fn cs lines rs).2) =
      scanRegexList pat fn cs lines rs := by
  intro rs
  induction rs with
  | nil => rfl
  | cons r rs ih =>
    obtain ⟨m, hm⟩ : ∃ m, (scanRegexS pat fn cs lines r).2 = { r with lastIndex := m } :=
      scanLoop_state pat fn cs lines (cs.length + 1) _
    have hfst : scanRegexS pat fn cs lines ((scanRegexS pat fn cs lines r).2) =
        scanRegexS pat fn cs lines r := by
      rw [hm, scanRegexS_lastIndex]
    rw [scanRegexList_cons pat fn cs lines r rs]
    rw [scanRegexList_cons pat fn cs lines ((scanRegexS pat fn cs lines r).2)
      ((scanRegexList pat fn cs lines rs).2)]
    rw [hfst, ih]

/-- `mkIssue` reads only the rule metadata, never its matcher list. -/
theorem mkIssue_patterns_irrel (p : CompiledPattern) (x : List RegExp)
    (fn : String) (cs : List Char) (lines : List (List Char)) (s e : Nat) :
    mkIssue { p with patterns := x } fn cs lines s e =
      mkIssue p fn cs lines s e := rfl

/-- Neither does the scan loop. -/
theorem scanLoop_patterns_irrel (p : CompiledPattern) (x : List RegExp)
    (fn : String) (cs : List Char) (lines : List (List Char)) :
    ∀ fuel r, scanLoop { p with patterns := x } fn cs lines fuel r =
      scanLoop p fn cs lines fuel r := by
  intro fuel
  induction fuel with
  | zero => intro r; rfl
  | succ f ih =>
    intro r
    simp only [scanLoop]
    rcases exec r cs with ⟨_ | ⟨s, e⟩, r'⟩
    · rfl
    · simp only [mkIssue_patterns_irrel, ih]

theorem scanRegexList_patterns_irrel (p : CompiledPattern) (x : List RegExp)
    (fn : String) (cs : List Char) (lines : List (List Char)) :
    ∀ rs, scanRegexList { p with patterns := x } fn cs lines rs =
      scanRegexList p fn cs lines rs := by
  intro rs
  induction rs with
  | nil => rfl
  | cons r rs ih =>
    simp only [scanRegexList, ih, scanRegexS, scanLoop_patterns_irrel]

/-- C6: scanning the same buffer twice with the same compiled rule set yields
identical finding lists, order included — the second call, run on the regex
states the first call left in the shared cache, reproduces the first call's
findings. -/
theorem analyze_idempotent (code filename : String)
    (pats : List CompiledPattern) :
    (analyzeWithPatternsS code filename
        ((analyzeWithPatternsS code filename pats).2)).1 =
      (analyzeWithPatternsS code filename pats).1 := by
  simp only [analyzeWithPatternsS]
  generalize code.toList = cs
  generalize splitNl cs = lines
  induction pats with
  | nil => rfl
  | cons p ps ih =>
    simp only [scanPatternList]
    have h1 : scanRegexList { p with patterns := (scanRegexList p filename cs lines p.patterns).2 }
        filename cs lines
        ({ p with patterns := (scanRegexList p filename cs lines p.patterns).2 } : CompiledPattern).patterns =
        scanRegexList p filename cs lines p.patterns := by
      rw [scanRegexList_patterns_irrel]
      exact scanRegexList_idem p filename cs lines p.patterns
    simp only [h1, ih]

/-! ### Line-number correctness (C7) -/

theorem splitNl_ne_nil (cs : List Char) : splitNl cs ≠ [] := by
  cases cs with
  | nil => simp [splitNl]
  | cons c rest =>
    simp only [splitNl]
    rcases splitNl rest with _ | ⟨h, t⟩
    · simp
    · dsimp only
      split <;> simp

/-- The number of lines of a prefix is one more than its line-break count. -/
theorem splitNl_length (cs : List Char) :
    (splitNl cs).length = cs.count '\n' + 1 := by
  induction cs with
  | nil => rfl
  | cons c rest ih =>
    simp only [splitNl]
    rcases hsp : splitNl rest with _ | ⟨h, t⟩
    · exact absurd hsp (splitNl_ne_nil rest)
    · rw [hsp] at ih
      dsimp only
      by_cases hc : c = '\n'
      · subst hc
        simp only [if_pos rfl, List.length_cons] at ih ⊢
        rw [List.count_cons]
        simp [ih]
      · rw [if_neg hc]
        simp only [List.length_cons] at ih ⊢
        rw [List.count_cons]
        simp [hc, ih, Ne.symm hc]

/-- A successful position search returns a real match at or before the end of
the buffer. -/
theorem searchLoop_sound (r : RegExp) (cs : List Char) :
    ∀ fuel i s e, searchLoop r cs fuel i = some (s, e) →
      s ≤ cs.length ∧ matchAt r cs s = some e := by
  intro fuel
  induction fuel with
  | zero => intro i s e h; simp [searchLoop] at h
  | succ f ih =>
    intro i s e h
    simp only [searchLoop] at h
    split at h
    · rcases hm : matchAt r cs i with _ | e'
      · rw [hm] at h
        exact ih _ _ _ h
      · rw [hm] at h
        obtain ⟨rfl, rfl⟩ : i = s ∧ e' = e := by
          constructor <;> · injection h with h'; cases h'; rfl
        exact ⟨by assumption, hm⟩
    · exact absurd h (by simp)

/-- Whatever `lastIndex` a regex carries, a match reported by `exec` is a
real match of the regex at its reported offset. -/
theorem exec_sound (r : RegExp) (cs : List Char) (s e : Nat)
    (h : (exec r cs).1 = some (s, e)) :
    s ≤ cs.length ∧ matchAt r cs s = some e := by
  simp only [exec] at h
  rcases hsf : searchFrom r cs (if r.global then r.lastIndex else 0) with _ | ⟨s', e'⟩ <;>
    rw [hsf] at h
  · simp at h
  · obtain ⟨rfl, rfl⟩ : s' = s ∧ e' = e := by
      constructor <;> · injection h with h'; cases h'; rfl
    exact searchLoop_sound r cs _ _ _ _ hsf

/-- `matchAt` ignores `lastIndex`. -/
theorem matchAt_set_lastIndex (r : RegExp) (k : Nat) (cs : List Char) (i : Nat) :
    matchAt { r with lastIndex := k } cs i = matchAt r cs i := rfl

/-- Every finding the match loop emits is built by `mkIssue` from a real
match offset of the loop's regex. -/
theorem scanLoop_issue_origin (pat : CompiledPattern) (fn : String)
    (cs : List Char) (lines : List (List Char)) :
    ∀ fuel r issue, issue ∈ (scanLoop pat fn cs lines fuel r).1 →
      ∃ s e, s ≤ cs.length ∧ matchAt r cs s = some e ∧
        issue = mkIssue pat fn cs lines s e := by
  intro fuel
  induction fuel with
  | zero => intro r issue h; simp [scanLoop] at h
  | succ f ih =>
    intro r issue h
    simp only [scanLoop] at h
    rcases hx : exec r cs with ⟨res, r1⟩
    obtain ⟨k, hk⟩ := exec_state r cs
    rw [hx] at hk h
    dsimp only at hk
    subst hk
    rcases res with _ | ⟨s, e⟩
    · simp at h
    · have hmatch : matchAt r cs s = some e ∧ s ≤ cs.length := by
        have := exec_sound r cs s e (by rw [hx])
        exact ⟨this.2, this.1⟩
      dsimp only at h
      split at h
      · rcases List.mem_cons.mp h with rfl | h'
        · exact ⟨s, e, hmatch.2, hmatch.1, rfl⟩
        · obtain ⟨s', e', hs', hm', hi'⟩ := ih { r with lastIndex := k } issue h'
          exact ⟨s', e', hs', by rw [← matchAt_set_lastIndex r k]; exact hm', hi'⟩
      · rcases List.mem_singleton.mp h with rfl
        exact ⟨s, e, hmatch.2, hmatch.1, rfl⟩

/-- Lifts the origin lemma through one rule's regex list. -/
theorem scanRegexList_issue_origin (pat : CompiledPattern) (fn : String)
    (cs : List Char) (lines : List (List Char)) :
    ∀ rs issue, issue ∈ (scanRegexList pat fn cs lines rs).1 →
      ∃ r ∈ rs, ∃ s e, s ≤ cs.length ∧ matchAt r cs s = some e ∧
        issue = mkIssue pat fn cs lines s e := by
  intro rs
  induction rs with
  | nil => intro issue h; simp [scanRegexList] at h
  | cons r rs ih =>
    intro issue h
    rw [scanRegexList_cons] at h
    rcases List.mem_append.mp h with h1 | h2
    · obtain ⟨s, e, hs, hm, hi⟩ :=
        scanLoop_issue_origin pat fn cs lines (cs.length + 1)
          { r with lastIndex := 0 } issue h1
      exact ⟨r, List.mem_cons_self _ _, s, e, hs,
        by rw [← matchAt_set_lastIndex r 0]; exact hm, hi⟩
    · obtain ⟨r', hr', rest⟩ := ih issue h2
      exact ⟨r', List.mem_cons_of_mem _ hr', rest⟩

theorem scanPatternList_cons (fn : String) (cs : List Char)
    (lines : List (List Char)) (p : CompiledPattern)
    (ps : List CompiledPattern) :
    scanPatternList fn cs lines (p :: ps) =
      ((scanRegexList p fn cs lines p.patterns).1 ++
        (scanPatternList fn cs lines ps).1,
       { p with patterns := (scanRegexList p fn cs lines p.patterns).2 } ::
        (scanPatternList fn cs lines ps).2) := rfl

/-- A test rule matching the literal text `match` (an escape-hatch
`raw_regex` definition with the default `g` flags). -/
def matchWordRule : PatternDefinition :=
  { id := "CS-TEST", title := "Match word",
    description := "Matches the literal text match.",
    severity := .low, category := .error,
    matchSpec := .raw_regex (rStr "match") none }

/-- C7: every finding's line number is one plus the number of line-break
characters in the buffer prefix up to the match offset that produced it
(hence 1-based); concretely, a rule matching `match` in `"a\nb\nmatch\nc"`
reports line 3. -/
theorem line_number_correct :
    (∀ (code filename : String) (pats : List CompiledPattern) (issue : Issue),
        issue ∈ (analyzeWithPatternsS code filename pats).1 →
        ∃ p ∈ pats, ∃ r ∈ p.patterns, ∃ s e, s ≤ code.toList.length ∧
          matchAt r code.toList s = some e ∧
          issue.line = some ((code.toList.take s).count '\n' + 1)) ∧
    ((analyzeWithPatternsS "a\nb\nmatch\nc" "test.ts"
        (compileCategory [matchWordRule])).1.map
        fun i => i.line) = [some 3] := by
  constructor
  · intro code filename pats issue h
    simp only [analyzeWithPatternsS] at h
    induction pats with
    | nil => simp [scanPatternList] at h
    | cons p ps ih =>
      rw [scanPatternList_cons] at h
      rcases List.mem_append.mp h with h1 | h2
      · obtain ⟨r, hr, s, e, hs, hm, hi⟩ :=
          scanRegexList_issue_origin p filename code.toList
            (splitNl code.toList) p.patterns issue h1
        refine ⟨p, List.mem_cons_self _ _, r, hr, s, e, hs, hm, ?_⟩
        rw [hi]
        simp only [mkIssue, Option.some.injEq]
        rw [splitNl_length]
      · obtain ⟨p', hp', rest⟩ := ih h2
        exact ⟨p', List.mem_cons_of_mem _ hp', rest⟩
  · decide

/-- The finding the test rule produces on `"a\nb\nmatch\nc"`. -/
def matchWordIssue : Issue :=
  { id := "CS-TEST", category := .error, severity := .low,
    title := "Match word", description := "Matches the literal text match.",
    line := some 3, code := some "match" }

/-- Witness for `line_number_correct` at the concrete test scan. -/
theorem line_number_correct_witness :
    matchWordIssue ∈ (analyzeWithPatternsS "a\nb\nmatch\nc" "test.ts"
      (compileCategory [matchWordRule])).1 ∧
    (∃ p ∈ compileCategory [matchWordRule], ∃ r ∈ p.patterns, ∃ s e,
      s ≤ ("a\nb\nmatch\nc" : String).toList.length ∧
      matchAt r ("a\nb\nmatch\nc" : String).toList s = some e ∧
      matchWordIssue.line =
        some ((("a\nb\nmatch\nc" : String).toList.take s).count '\n' + 1)) :=
  ⟨by decide,
    line_number_correct.1 "a\nb\nmatch\nc" "test.ts"
      (compileCategory [matchWordRule]) matchWordIssue (by decide)⟩

/-! ### OpenAI-key detection (C9) -/

/-- `[A-Za-z0-9]` as a character predicate. -/
def isAlnum (c : Char) : Bool :=
  ('A' ≤ c && c ≤ 'Z') || (('a' ≤ c && c ≤ 'z') || ('0' ≤ c && c ≤ '9'))

/-- Position `i` of the buffer starts an OpenAI key: the three characters
`sk-` followed by 48 alphanumeric characters. -/
def isOpenAIKeyAt (cs : List Char) (i : Nat) : Bool :=
  ((cs.drop i).take 3 == ['s', 'k', '-']) &&
  (((cs.drop (i + 3)).take 48).length == 48) &&
  ((cs.drop (i + 3)).take 48).all isAlnum

theorem alnumCls_matches (ic : Bool) (c : Char) (h : isAlnum c = true) :
    Cls.matches ic alnumClsVal c = true := by
  simp only [isAlnum, Bool.or_eq_true, Bool.and_eq_true] at h
  simp only [Cls.matches, alnumClsVal, ClsItem.matches, List.any_cons,
    List.any_nil, Bool.or_eq_true, Bool.and_eq_true, bne_iff_ne]
  intro hfalse
  simp only [Bool.or_eq_false_iff] at hfalse
  rcases h with h | h | h <;> simp_all

theorem litCls_matches_self (ic : Bool) (c : Char) :
    Cls.matches ic ⟨false, [.lit c]⟩ c = true := by
  simp [Cls.matches, ClsItem.matches]

theorem isSome_orElse_right (x y : Option Nat) (h : y.isSome) :
    (x <|> y).isSome := by
  cases x <;> simp_all

theorem isSome_orElse_left (x y : Option Nat) (h : x.isSome) :
    (x <|> y).isSome := by
  cases x <;> simp_all

theorem get?_of_drop_cons (cs : List Char) (i : Nat) (c : Char)
    (t : List Char) (h : cs.drop i = c :: t) : cs.get? i = some c := by
  have h0 : (cs.drop i).get? 0 = cs.get? i := by
    rw [List.get?_eq_getElem?, List.get?_eq_getElem?, List.getElem?_drop,
      Nat.add_zero]
  rw [h] at h0
  simpa using h0.symm

theorem drop_succ_of_drop_cons (cs : List Char) (i : Nat) (c : Char)
    (t : List Char) (h : cs.drop i = c :: t) : cs.drop (i + 1) = t := by
  have : (cs.drop i).drop 1 = cs.drop (i + 1) := by
    rw [List.drop_drop]
  rw [← this, h]
  rfl

/-- One class step of the matcher: consume a matching character. -/
theorem mrun_cls_step (ic ml : Bool) (cs : List Char) (cl : Cls) (ch : Char)
    (i f : Nat) (caps : Caps) (k : Nat → Caps → Option Nat)
    (hget : cs.get? i = some ch) (hm : Cls.matches ic cl ch = true) :
    mrun ic ml cs (f + 1) (.cls cl) i caps k = k (i + 1) caps := by
  simp only [mrun, hget, hm, if_true]

/-- Running a literal-character sequence consumes exactly those characters
and hands the position after them to the continuation. -/
theorem mrun_lits (ic ml : Bool) (cs : List Char) :
    ∀ (l rest : List Char) (i fuel : Nat) (caps : Caps)
      (k : Nat → Caps → Option Nat),
      cs.drop i = l ++ rest → l.length + 1 ≤ fuel →
      mrun ic ml cs fuel (seqL (l.map rLit)) i caps k =
        k (i + l.length) caps := by
  intro l
  induction l with
  | nil =>
    intro rest i fuel caps k _ hfuel
    obtain ⟨f, rfl⟩ : ∃ f, fuel = f + 1 := ⟨fuel - 1, by omega⟩
    simp [mrun, seqL]
  | cons c l' ih =>
    intro rest i fuel caps k hdrop hfuel
    obtain ⟨f, rfl⟩ : ∃ f, fuel = f + 1 := ⟨fuel - 1, by omega⟩
    have hget : cs.get? i = some c :=
      get?_of_drop_cons cs i c (l' ++ rest) (by simpa using hdrop)
    have hdrop' : cs.drop (i + 1) = l' ++ rest :=
      drop_succ_of_drop_cons cs i c (l' ++ rest) (by simpa using hdrop)
    have hf' : l'.length + 1 ≤ f := by
      simp only [List.length_cons] at hfuel
      omega
    obtain ⟨f', rfl⟩ : ∃ f', f = f' + 1 := ⟨f - 1, by omega⟩
    have step1 : mrun ic ml cs (f' + 1 + 1) (seqL ((c :: l').map rLit)) i caps k =
        mrun ic ml cs (f' + 1) (.cls ⟨false, [ClsItem.lit c]⟩) i caps
          (fun j caps2 =>
            mrun ic ml cs (f' + 1) (seqL (l'.map rLit)) j caps2 k) := rfl
    rw [step1,
      mrun_cls_step ic ml cs ⟨false, [ClsItem.lit c]⟩ c i f' caps _ hget
        (litCls_matches_self ic c)]
    rw [ih rest (i + 1) (f' + 1) caps k hdrop' hf']
    congr 1
    simp only [List.length_cons]
    omega

/-- Running an `n`-fold class repetition over `n` matching characters hands
the position after them to the continuation. -/
theorem mrun_repN_cls (ic ml : Bool) (cs : List Char) (cl : Cls) :
    ∀ (w rest : List Char) (i fuel : Nat) (caps : Caps)
      (k : Nat → Caps → Option Nat),
      cs.drop i = w ++ rest →
      w.all (fun ch => Cls.matches ic cl ch) = true →
      w.length + 1 ≤ fuel →
      mrun ic ml cs fuel (repN w.length (.cls cl)) i caps k =
        k (i + w.length) caps := by
  intro w
  induction w with
  | nil =>
    intro rest i fuel caps k _ _ hfuel
    obtain ⟨f, rfl⟩ : ∃ f, fuel = f + 1 := ⟨fuel - 1, by omega⟩
    simp [mrun, repN]
  | cons c w' ih =>
    intro rest i fuel caps k hdrop hall hfuel
    obtain ⟨f, rfl⟩ : ∃ f, fuel = f + 1 := ⟨fuel - 1, by omega⟩
    have hget : cs.get? i = some c :=
      get?_of_drop_cons cs i c (w' ++ rest) (by simpa using hdrop)
    have hdrop' : cs.drop (i + 1) = w' ++ rest :=
      drop_succ_of_drop_cons cs i c (w' ++ rest) (by simpa using hdrop)
    simp only [List.all_cons, Bool.and_eq_true] at hall
    have hf' : w'.length + 1 ≤ f := by
      simp only [List.length_cons] at hfuel
      omega
    obtain ⟨f', rfl⟩ : ∃ f', f = f' + 1 := ⟨f - 1, by omega⟩
    have step1 : mrun ic ml cs (f' + 1 + 1) (repN (c :: w').length (.cls cl)) i
        caps k =
        mrun ic ml cs (f' + 1) (.cls cl) i caps
          (fun j caps2 =>
            mrun ic ml cs (f' + 1) (repN w'.length (.cls cl)) j caps2 k) := rfl
    rw [step1, mrun_cls_step ic ml cs cl c i f' caps _ hget hall.1]
    rw [ih rest (i + 1) (f' + 1) caps k hdrop' hall.2 hf']
    congr 1
    simp only [List.length_cons]
    omega

/-- `mrun_repN_cls`, stated for an arbitrary repetition count equal to the
witness word's length. -/
theorem mrun_repN_cls_n (ic ml : Bool) (cs : List Char) (cl : Cls)
    (w rest : List Char) (n i fuel : Nat) (caps : Caps)
    (k : Nat → Caps → Option Nat)
    (hdrop : cs.drop i = w ++ rest)
    (hall : w.all (fun ch => Cls.matches ic cl ch) = true)
    (hw : w.length = n) (hfuel : n + 1 ≤ fuel) :
    mrun ic ml cs fuel (repN n (.cls cl)) i caps k = k (i + n) caps := by
  subst hw
  exact mrun_repN_cls ic ml cs cl w rest i fuel caps k hdrop hall hfuel

/-- A quantifier whose continuation always succeeds cannot fail. -/
theorem mrun_star_total (ic ml : Bool) (cs : List Char) (g : Bool) (a : Re)
    (i fuel : Nat) (caps : Caps) (k : Nat → Caps → Option Nat) (hf : 1 ≤ fuel)
    (hk : (k i caps).isSome) :
    (mrun ic ml cs fuel (.star g a) i caps k).isSome := by
  obtain ⟨f, rfl⟩ : ∃ f, fuel = f + 1 := ⟨fuel - 1, by omega⟩
  simp only [mrun]
  cases g
  · exact isSome_orElse_left _ _ hk
  · exact isSome_orElse_right _ _ hk

/-- The OpenAI-key matcher succeeds at any position that starts a key, and
such a position leaves at least 51 characters in the buffer. -/
theorem openai_matchAt (cs : List Char) (i : Nat)
    (h : isOpenAIKeyAt cs i = true) :
    (matchAt openaiKeyRegex cs i).isSome ∧ i + 51 ≤ cs.length := by
  simp only [isOpenAIKeyAt, Bool.and_eq_true, beq_iff_eq] at h
  obtain ⟨⟨h1, h2⟩, h3⟩ := h
  have hd1 : cs.drop i = ['s', 'k', '-'] ++ (cs.drop i).drop 3 := by
    conv_lhs => rw [← List.take_append_drop 3 (cs.drop i)]
    rw [h1]
  have hd3 : (cs.drop i).drop 3 = cs.drop (i + 3) := by
    rw [List.drop_drop]
  have hd2 : cs.drop (i + 3) =
      (cs.drop (i + 3)).take 48 ++ (cs.drop (i + 3)).drop 48 :=
    (List.take_append_drop 48 (cs.drop (i + 3))).symm
  have hlen : i + 51 ≤ cs.length := by
    have ht := List.length_take 48 (cs.drop (i + 3))
    rw [h2] at ht
    have hdl := List.length_drop (i + 3) cs
    omega
  refine ⟨?_, hlen⟩
  have halnum : ((cs.drop (i + 3)).take 48).all
      (fun ch => Cls.matches false alnumClsVal ch) = true := by
    rw [List.all_eq_true] at h3 ⊢
    intro ch hch
    exact alnumCls_matches false ch (h3 ch hch)
  have hfuel : 55 ≤ reFuel openaiKeyRegex.re cs := by
    have hsize : reSize openaiKeyRegex.re = 108 := rfl
    simp only [reFuel, hsize]
    omega
  -- unfold the regex into the literal prefix, the 48-fold repetition and
  -- the trailing star
  rw [show matchAt openaiKeyRegex cs i =
      mrun false false cs (reFuel openaiKeyRegex.re cs)
        (.seq (seqL (['s', 'k', '-'].map rLit))
          (.seq (repN 48 (.cls alnumClsVal))
            (.star true (.cls alnumClsVal)))) i []
        (fun j _ => some j) from rfl]
  obtain ⟨f, hF, hf54⟩ : ∃ f, reFuel openaiKeyRegex.re cs = f + 1 ∧ 54 ≤ f :=
    ⟨reFuel openaiKeyRegex.re cs - 1, by omega, by omega⟩
  rw [hF]
  simp only [mrun]
  rw [mrun_lits false false cs ['s', 'k', '-'] ((cs.drop i).drop 3) i f [] _
    hd1 (by simp; omega)]
  have hlen3 : (i + (['s', 'k', '-'] : List Char).length) = i + 3 := rfl
  rw [hlen3]
  obtain ⟨f2, rfl⟩ : ∃ f2, f = f2 + 1 := ⟨f - 1, by omega⟩
  simp only [mrun]
  rw [mrun_repN_cls_n false false cs alnumClsVal ((cs.drop (i + 3)).take 48)
    ((cs.drop (i + 3)).drop 48) 48 (i + 3) f2 [] _ hd2 halnum h2 (by omega)]
  exact mrun_star_total false false cs true (.cls alnumClsVal) (i + 3 + 48)
    f2 [] (fun j _ => some j) (by omega) rfl

/-- `searchLoop` succeeds whenever a match exists at some position within
its fuel window. -/
theorem searchLoop_isSome (r : RegExp) (cs : List Char) :
    ∀ (fuel i j : Nat), i ≤ j → j ≤ cs.length →
      (matchAt r cs j).isSome = true → j + 1 ≤ i + fuel →
      (searchLoop r cs fuel i).isSome = true := by
  intro fuel
  induction fuel with
  | zero =>
    intro i j hij _ _ hf
    exfalso
    omega
  | succ f ih =>
    intro i j hij hjl hm hf
    simp only [searchLoop]
    rw [if_pos (show i ≤ cs.length by omega)]
    cases hxm : matchAt r cs i with
    | some e => rfl
    | none =>
      have hne : i ≠ j := by
        intro he
        rw [he] at hxm
        rw [hxm] at hm
        simp at hm
      exact ih (i + 1) j (by omega) hjl hm (by omega)

/-- `searchFrom` succeeds whenever a match exists at or after its start. -/
theorem searchFrom_isSome (r : RegExp) (cs : List Char) (i j : Nat)
    (hij : i ≤ j) (hjl : j ≤ cs.length)
    (hm : (matchAt r cs j).isSome = true) :
    (searchFrom r cs i).isSome = true :=
  searchLoop_isSome r cs (cs.length + 1 - i) i j hij hjl hm (by omega)

/-- `exec` returns a match whenever the search from its start position
succeeds. -/
theorem exec_isSome_of (r : RegExp) (cs : List Char)
    (h : (searchFrom r cs (if r.global then r.lastIndex else 0)).isSome
      = true) :
    ((exec r cs).1).isSome = true := by
  obtain ⟨⟨s, e⟩, hp⟩ := Option.isSome_iff_exists.mp h
  simp only [exec]
  rw [hp]
  rfl

/-- A successful first `exec` makes the match loop emit the corresponding
finding. -/
theorem scanLoop_emits (pat : CompiledPattern) (fn : String) (cs : List Char)
    (lines : List (List Char)) (fuel : Nat) (r : RegExp)
    (h : ((exec r cs).1).isSome = true) (hf : 1 ≤ fuel) :
    ∃ s e, mkIssue pat fn cs lines s e ∈
      (scanLoop pat fn cs lines fuel r).1 := by
  obtain ⟨f, rfl⟩ : ∃ f, fuel = f + 1 := ⟨fuel - 1, by omega⟩
  rcases hx : exec r cs with ⟨res, r2⟩
  rw [hx] at h
  rcases res with _ | ⟨s, e⟩
  · simp at h
  · refine ⟨s, e, ?_⟩
    simp only [scanLoop, hx]
    by_cases hg : r2.global
    · rw [if_pos hg]
      show mkIssue pat fn cs lines s e ∈
        mkIssue pat fn cs lines s e :: (scanLoop pat fn cs lines f r2).1
      exact List.mem_cons_self _ _
    · rw [if_neg hg]
      show mkIssue pat fn cs lines s e ∈ [mkIssue pat fn cs lines s e]
      exact List.mem_cons_self _ _

/-- Scanning one regex that matches somewhere in the buffer emits at least
one finding for its rule. -/
theorem scanRegexS_emits (pat : CompiledPattern) (fn : String) (cs : List Char)
    (lines : List (List Char)) (r : RegExp) (j : Nat)
    (hj : j ≤ cs.length) (hm : (matchAt r cs j).isSome = true) :
    ∃ s e, mkIssue pat fn cs lines s e ∈
      (scanRegexS pat fn cs lines r).1 := by
  have h0 : (if ({ r with lastIndex := 0 } : RegExp).global
      then ({ r with lastIndex := 0 } : RegExp).lastIndex else 0) = 0 := by
    split <;> rfl
  show ∃ s e, mkIssue pat fn cs lines s e ∈
    (scanLoop pat fn cs lines (cs.length + 1) { r with lastIndex := 0 }).1
  apply scanLoop_emits
  · apply exec_isSome_of
    rw [h0]
    exact searchFrom_isSome _ cs 0 j (Nat.zero_le j) hj hm
  · omega

/-- Findings of one of a rule's regexes are among the findings of the whole
regex list. -/
theorem scanRegexList_mem_of (pat : CompiledPattern) (fn : String)
    (cs : List Char) (lines : List (List Char)) (r : RegExp)
    (rs : List RegExp) (issue : Issue) (hr : r ∈ rs)
    (h : issue ∈ (scanRegexS pat fn cs lines r).1) :
    issue ∈ (scanRegexList pat fn cs lines rs).1 := by
  induction rs with
  | nil => cases hr
  | cons q rs2 ih =>
    rw [scanRegexList_cons]
    rcases List.mem_cons.mp hr with rfl | hr2
    · exact List.mem_append_left _ h
    · exact List.mem_append_right _ (ih hr2)

/-- Findings of one compiled rule are among the findings of the whole rule
list. -/
theorem scanPatternList_mem_of (fn : String) (cs : List Char)
    (lines : List (List Char)) (p : CompiledPattern)
    (ps : List CompiledPattern) (issue : Issue) (hp : p ∈ ps)
    (h : issue ∈ (scanRegexList p fn cs lines p.patterns).1) :
    issue ∈ (scanPatternList fn cs lines ps).1 := by
  induction ps with
  | nil => cases hp
  | cons q ps2 ih =>
    have hcons : (scanPatternList fn cs lines (q :: ps2)).1 =
        (scanRegexList q fn cs lines q.patterns).1 ++
          (scanPatternList fn cs lines ps2).1 := rfl
    rw [hcons]
    rcases List.mem_cons.mp hp with rfl | hp2
    · exact List.mem_append_left _ h
    · exact List.mem_append_right _ (ih hp2)

/-- A replacement string without a dollar sign has no escapes to expand. -/
theorem expandRepl_no_dollar (matched pre post : List Char) :
    ∀ l, '$' ∉ l → expandRepl matched pre post l = l := by
  intro l
  induction l with
  | nil => intro _; rfl
  | cons c rest ih =>
    intro hl
    rw [List.mem_cons, not_or] at hl
    rw [expandRepl.eq_def]
    dsimp only
    rw [if_neg (fun h => hl.1 h.symm), ih hl.2]

/-- Substituting into the first CS-SEC003 verification command: it has no
occurrence of the matched-value placeholder, so only the filename — which
carries no replacement-string escapes when it has no dollar sign — is
spliced in. -/
theorem subst_cmd1 (mv fn : String) (hfn : '$' ∉ fn.toList) :
    jsReplace (jsReplace "git log -p -S \"sk-\" --all -- <filename>"
      "<matched_value>" mv) "<filename>" fn =
    "git log -p -S \"sk-\" --all -- " ++ fn := by
  have h : jsReplace (jsReplace "git log -p -S \"sk-\" --all -- <filename>"
      "<matched_value>" mv) "<filename>" fn =
      String.mk ("git log -p -S \"sk-\" --all -- ".toList ++
        (expandRepl "<filename>".toList
          "git log -p -S \"sk-\" --all -- ".toList [] fn.toList ++ [])) := rfl
  rw [h, expandRepl_no_dollar _ _ _ _ hfn, List.append_nil]
  rfl

/-- Substituting into the second CS-SEC003 verification command. -/
theorem subst_cmd2 (mv fn : String) (hfn : '$' ∉ fn.toList) :
    jsReplace (jsReplace "git ls-files <filename>" "<matched_value>" mv)
      "<filename>" fn = "git ls-files " ++ fn := by
  have h : jsReplace (jsReplace "git ls-files <filename>" "<matched_value>" mv)
      "<filename>" fn =
      String.mk ("git ls-files ".toList ++
        (expandRepl "<filename>".toList "git ls-files ".toList [] fn.toList ++
          [])) := rfl
  rw [h, expandRepl_no_dollar _ _ _ _ hfn, List.append_nil]
  rfl

/-- The substituted CS-SEC003 verification block, for any matched value and
any filename without a dollar sign. -/
theorem sec003_subst (matched : List Char) (fn : String)
    (hfn : '$' ∉ fn.toList) :
    substituteVerification
      { status := .needs_verification,
        assumption := some "Key is real and may have been committed to git history",
        commands := some ["git log -p -S \"sk-\" --all -- <filename>",
          "git ls-files <filename>"],
        instruction := some "Check if key was ever committed. If in history, it must be rotated",
        confirmIf := some "Key matches OpenAI format (sk- prefix, 48+ chars) and file is tracked",
        falsePositiveIf := some "Key is in documentation as example or clearly marked as fake" }
      matched fn =
    { status := .needs_verification,
      assumption := some "Key is real and may have been committed to git history",
      commands := some ["git log -p -S \"sk-\" --all -- " ++ fn,
        "git ls-files " ++ fn],
      instruction := some "Check if key was ever committed. If in history, it must be rotated",
      confirmIf := some "Key matches OpenAI format (sk- prefix, 48+ chars) and file is tracked",
      falsePositiveIf := some "Key is in documentation as example or clearly marked as fake" } := by
  simp only [substituteVerification, Option.map_some', List.map_cons,
    List.map_nil]
  rw [subst_cmd1 _ fn hfn, subst_cmd2 _ fn hfn]

/-- C9 counterexample: the claim quantifies over every filename, but
`String.replace` interprets `$`-escapes in its replacement string, so for
the filename `$&` each `$&` expands to the matched text `<filename>` itself:
the emitted CS-SEC003 finding's verification commands still read
`<filename>` and do not contain the literal filename argument anywhere. -/
theorem openai_key_filename_escape :
    analyzeSecurityWithPatterns
      "const k = \"sk-aaaaaaaaaaaaaaaaaaaaaaaaaaaaaaaaaaaaaaaaaaaaaaaa\";"
      "$&" =
      [{ id := "CS-SEC003", category := .security, severity := .critical,
         title := "OpenAI API Key Detected",
         description := "An OpenAI API key was found in the code.",
         line := some 1,
         code := some "const k = \"sk-aaaaaaaaaaaaaaaaaaaaaaaaaaaaaaaaaaaaaaaaaaaaaaaa\";",
         suggestion := some "Remove the key and rotate it in your OpenAI dashboard.",
         verification := some
           { status := .needs_verification,
             assumption := some "Key is real and may have been committed to git history",
             commands := some ["git log -p -S \"sk-\" --all -- <filename>",
               "git ls-files <filename>"],
             instruction := some "Check if key was ever committed. If in history, it must be rotated",
             confirmIf := some "Key matches OpenAI format (sk- prefix, 48+ chars) and file is tracked",
             falsePositiveIf := some "Key is in documentation as example or clearly marked as fake" } }] ∧
    ¬ List.IsInfix ("$&" : String).toList
      ("git log -p -S \"sk-\" --all -- <filename>" : String).toList ∧
    ¬ List.IsInfix ("$&" : String).toList
      ("git ls-files <filename>" : String).toList :=
  ⟨rfl, by decide, by decide⟩

/-- C9 (amended): whenever the code contains an OpenAI-style API key — the
literal prefix sk- followed by 48 alphanumeric characters — the security
scan (`analyzeSecurityWithPatterns` over `securityDefinitions`) reports a
CS-SEC003 finding of category security and severity critical whose
verification block carries status needs_verification and the two git
commands with `<filename>` replaced by the scanned filename, provided the
filename contains no dollar sign (`String.replace` interprets `$`-escapes
in the replacement string, so a filename such as `$&` is not spliced
literally — see the counterexample). -/
theorem openai_key_detected (code filename : String) (i : Nat)
    (h : isOpenAIKeyAt code.toList i = true)
    (hfn : '$' ∉ filename.toList) :
    ∃ issue ∈ analyzeSecurityWithPatterns code filename,
      issue.id = "CS-SEC003" ∧ issue.category = .security ∧
      issue.severity = .critical ∧
      issue.verification = some
        { status := .needs_verification,
          assumption := some "Key is real and may have been committed to git history",
          commands := some ["git log -p -S \"sk-\" --all -- " ++ filename,
            "git ls-files " ++ filename],
          instruction := some "Check if key was ever committed. If in history, it must be rotated",
          confirmIf := some "Key matches OpenAI format (sk- prefix, 48+ chars) and file is tracked",
          falsePositiveIf := some "Key is in documentation as example or clearly marked as fake" } := by
  obtain ⟨hm, hlen⟩ := openai_matchAt code.toList i h
  obtain ⟨s, e, hmem⟩ := scanRegexS_emits (compileDefinition sec003Def)
    filename code.toList (splitNl code.toList) openaiKeyRegex i
    (by omega) hm
  have hsec : sec003Def ∈ securityDefinitions :=
    List.mem_cons_of_mem _ (List.mem_cons_of_mem _ (List.mem_cons_self _ _))
  have hcomp : compileDefinition sec003Def ∈
      compileCategory securityDefinitions :=
    List.mem_map_of_mem compileDefinition hsec
  have hreg : openaiKeyRegex ∈ (compileDefinition sec003Def).patterns :=
    List.mem_cons_self _ _
  refine ⟨mkIssue (compileDefinition sec003Def) filename code.toList
    (splitNl code.toList) s e, ?_, rfl, rfl, rfl, ?_⟩
  · show _ ∈ (scanPatternList filename code.toList (splitNl code.toList)
      (compileCategory securityDefinitions)).1
    exact scanPatternList_mem_of filename code.toList (splitNl code.toList)
      (compileDefinition sec003Def) (compileCategory securityDefinitions) _
      hcomp
      (scanRegexList_mem_of (compileDefinition sec003Def) filename
        code.toList (splitNl code.toList) openaiKeyRegex
        (compileDefinition sec003Def).patterns _ hreg hmem)
  · show some (substituteVerification
      { status := .needs_verification,
        assumption := some "Key is real and may have been committed to git history",
        commands := some ["git log -p -S \"sk-\" --all -- <filename>",
          "git ls-files <filename>"],
        instruction := some "Check if key was ever committed. If in history, it must be rotated",
        confirmIf := some "Key matches OpenAI format (sk- prefix, 48+ chars) and file is tracked",
        falsePositiveIf := some "Key is in documentation as example or clearly marked as fake" }
      (substr code.toList s e) filename) = some _
    exact congrArg some (sec003_subst (substr code.toList s e) filename hfn)

/-- C9 witness: a concrete buffer holding an sk- key with 48 alphanumeric
characters is flagged, for a dollar-free filename. -/
theorem openai_key_detected_witness :
    isOpenAIKeyAt ("const k = \"sk-aaaaaaaaaaaaaaaaaaaaaaaaaaaaaaaaaaaaaaaaaaaaaaaa\";").toList 11 = true ∧
    '$' ∉ ("config.ts" : String).toList ∧
    ∃ issue ∈ analyzeSecurityWithPatterns
      "const k = \"sk-aaaaaaaaaaaaaaaaaaaaaaaaaaaaaaaaaaaaaaaaaaaaaaaa\";"
      "config.ts",
      issue.id = "CS-SEC003" ∧ issue.category = .security ∧
      issue.severity = .critical ∧
      issue.verification = some
        { status := .needs_verification,
          assumption := some "Key is real and may have been committed to git history",
          commands := some ["git log -p -S \"sk-\" --all -- " ++ "config.ts",
            "git ls-files " ++ "config.ts"],
          instruction := some "Check if key was ever committed. If in history, it must be rotated",
          confirmIf := some "Key matches OpenAI format (sk- prefix, 48+ chars) and file is tracked",
          falsePositiveIf := some "Key is in documentation as example or clearly marked as fake" } :=
  ⟨by decide, by decide,
   openai_key_detected
     "const k = \"sk-aaaaaaaaaaaaaaaaaaaaaaaaaaaaaaaaaaaaaaaaaaaaaaaa\";"
     "config.ts" 11 (by decide) (by decide)⟩

end CodeSentinel
